import Mathlib

/-!
Verification development for `shakelib/grind/multigmpe.py`.

A `MultiGMPE` combines several ground-motion prediction models (GMPEs) into
one weighted composite.  The embedding below models, over exact rationals:

* per-site arrays as `List ℚ` and shaped numpy arrays as `NDArr`
  (a shape together with the flat data);
* the site / distance parameter bundles (`SitesContext`, `DistancesContext`)
  as association lists from field names to arrays;
* the member GMPEs as records of their declared capability slots together
  with an evaluation function (the member models themselves are an external
  library: only their declared metadata and their outputs enter the code);
* the combination engine `__get_mean_and_stddevs` (shape validation,
  flattening, the weighted mean / raw-second-moment accumulation loop, the
  subtraction of the squared mean, the square root, and the restore of the
  original shapes);
* the large-distance stomping in `get_mean_and_stddevs`;
* the constructor `from_list` with its validation sequence; and
* `filter_gmpe_list`.

`np.sqrt` maps a negative argument to NaN; this is modelled by `npSqrt`
returning `Option ℝ`, with `none` standing for NaN.
-/

set_option linter.unusedVariables false

namespace Shakelib

/-- Intensity measure type: the openquake `imt` instance passed to
`get_mean_and_stddevs` (PGA, PGV or SA at a period). -/
inductive IMT where
  | PGA : IMT
  | PGV : IMT
  | SA : ℚ → IMT
deriving DecidableEq, Repr

/-- Intensity measure component (`const.IMC` value), e.g.
GREATER_OF_TWO_HORIZONTAL or RotD50. -/
inductive IMC where
  | greaterOfTwoHorizontal : IMC
  | rotD50 : IMC
  | otherIMC : String → IMC
deriving DecidableEq, Repr

/-- A numpy array: its shape and its flat (row-major) data.  A well-formed
array has `data.length = shape.prod`. -/
structure NDArr where
  shape : List ℕ
  data : List ℚ
deriving DecidableEq, Repr

/-- A sites or distances context: a mapping from field names (the entries of
`__dict__`) to arrays.  Python attribute order is insertion order, so an
association list is a faithful model. -/
abbrev Bundle : Type := List (String × NDArr)

/-- A rupture context: scalar parameters only; the engine never reads or
reshapes it, it is passed through to the member models. -/
abbrev Rup : Type := List (String × ℚ)

/-- One member GMPE: the openquake capability slots read by this module,
plus its behaviour.  `evalAt` abstracts the external
`gmpe.get_mean_and_stddevs(sites, rup, dists, imt, stddev_types)` call
(returning the ln-mean array and one stddev array per requested type);
the member models' numerics are an external collaborator. -/
structure Gmpe where
  DEFINED_FOR_TECTONIC_REGION_TYPE : String
  DEFINED_FOR_INTENSITY_MEASURE_TYPES : List String
  DEFINED_FOR_INTENSITY_MEASURE_COMPONENT : IMC
  DEFINED_FOR_STANDARD_DEVIATION_TYPES : List String
  REQUIRES_SITES_PARAMETERS : List String
  REQUIRES_RUPTURE_PARAMETERS : List String
  REQUIRES_DISTANCES : List String
  /-- The spectral periods of the coefficient table found by
  `get_gmpe_sa_periods` (`COEFFS...sa_coeffs` keys). -/
  saPeriods : List ℚ
  /-- The non-period-indexed entries of the coefficient table
  (`COEFFS...non_sa_coeffs` keys). -/
  nonSaCoeffs : List IMT
  evalAt : Bundle → Rup → Bundle → IMT → List String → List ℚ × List (List ℚ)

/-- An entry of the list handed to `from_list`: either an object that is a
GMPE instance, or some other object (named by its repr), modelling the
`isinstance(g, GMPE)` check. -/
inductive GmpeEntry where
  | gmpe : Gmpe → GmpeEntry
  | notGmpe : String → GmpeEntry

/-- Modelled from the spec: the convention converters.  The modules
`shakelib.grind.conversions.imc.beyer_bommer_2006` and
`shakelib.grind.conversions.imt.newmark_hall_1982` are not under `src/`;
per the spec the Convention Converter "converts a predicted
mean/uncertainty pair between component conventions ... and between one
intensity measure and a related one via an empirical relation", acting
elementwise on the per-site arrays.  `amp`/`sigma` model
`BeyerBommer2006.ampIMCtoIMC`/`sigmaIMCtoIMC` (input convention, output
convention, imt, value); `psa102pgvMean`/`psa102pgvSd` model
`NewmarkHall1982.psa102pgv`, the fixed empirical relation taking the
model's own 1.0 s mean and uncertainty. -/
structure ConvModel where
  amp : IMC → IMC → IMT → ℚ → ℚ
  sigma : IMC → IMC → IMT → ℚ → ℚ
  psa102pgvMean : ℚ → ℚ → ℚ
  psa102pgvSd : ℚ → ℚ → ℚ

/-- The attributes of a constructed `MultiGMPE` instance. -/
structure MultiGmpe where
  GMPES : List Gmpe
  WEIGHTS : List ℚ
  DEFINED_FOR_INTENSITY_MEASURE_TYPES : List String
  ALL_GMPES_HAVE_PGV : Bool
  IMCs : List IMC
  DEFINED_FOR_INTENSITY_MEASURE_COMPONENT : IMC
  DEFINED_FOR_STANDARD_DEVIATION_TYPES : List String
  REQUIRES_SITES_PARAMETERS : List String
  HAS_SITE : List Bool
  DEFAULT_GMPES_FOR_SITE : Option (List Gmpe)
  DEFAULT_GMPES_FOR_SITE_WEIGHTS : Option (List ℚ)
  REFERENCE_VS30 : ℚ
  REQUIRES_RUPTURE_PARAMETERS : List String
  REQUIRES_DISTANCES : List String
  /-- `hasattr(self, 'CUTOFF_DISTANCE')` is modelled by this being `some`;
  `from_list` leaves it unset, `from_config` may set it. -/
  CUTOFF_DISTANCE : Option ℚ
  WEIGHTS_LARGE_DISTANCE : List ℚ

/-- Exceptions raised by `__get_mean_and_stddevs`. -/
inductive EngineError where
  | shapeMismatch : EngineError
  | missingVs30 : EngineError
  | unavailableStddevType : EngineError
deriving DecidableEq, Repr

/-- The signature of the site-amplification helper.  `get_site_factors`
(lines 597-649 of the source) evaluates a fresh `MultiGMPE` built from the
default site models at the true and at the reference-rock vs30 and returns
the difference of ln-means; the engine only consumes the resulting array,
so the member loop is parameterised over this function. -/
abbrev SiteAmpFn : Type := Bundle → Rup → Bundle → IMT → List ℚ

/-- The signature of `set_sites_depth_parameters` (lines 651-684): it calls
the external `Sites._addDepthParameters` (module `shakelib.grind.sites`,
not under `src/`), which adds derived depth fields to the sites context,
and returns the updated context. -/
abbrev DepthFn : Type := Bundle → Gmpe → Bundle

/-- Looks up a field of a context (`getattr`). -/
def lookupField (b : Bundle) (k : String) : Option NDArr :=
  (b.find? (fun kv => kv.1 = k)).map (fun kv => kv.2)

/-- Lines 233-277, the body of the member loop after the depth-parameter
update: evaluate the member (with the PGV-from-PSA(1.0) conversion branch
and the default site amplification for members without a site term), then
convert mean and stddevs to the composite's component convention. -/
def memberMeanSd (M : MultiGmpe) (C : ConvModel) (siteAmps : SiteAmpFn)
    (sites : Bundle) (rup : Rup) (dists : Bundle) (imt : IMT)
    (stddevTypes : List String) (g : Gmpe) (hasSite : Bool) :
    List ℚ × List (List ℚ) :=
  let pair :=
    if imt = IMT.PGV ∧ ¬ g.DEFINED_FOR_INTENSITY_MEASURE_TYPES.contains "PGV" then
      -- IMT is PGV and the member does not provide PGV: evaluate at SA(1.0)
      -- (adding the default site amplification when the member has no site
      -- term) and convert via NewmarkHall1982.psa102pgv.
      let ev := g.evalAt sites rup dists (IMT.SA 1) stddevTypes
      let psa10 :=
        if hasSite then ev.1
        else List.zipWith (fun a b => a + b) ev.1 (siteAmps sites rup dists (IMT.SA 1))
      let sd0 := ev.2.headD []
      (List.zipWith C.psa102pgvMean psa10 sd0,
       List.replicate stddevTypes.length (List.zipWith C.psa102pgvSd psa10 sd0))
    else
      let ev := g.evalAt sites rup dists imt stddevTypes
      if hasSite then ev
      else (List.zipWith (fun a b => a + b) ev.1 (siteAmps sites rup dists imt), ev.2)
  let imcIn := g.DEFINED_FOR_INTENSITY_MEASURE_COMPONENT
  let imcOut := M.DEFINED_FOR_INTENSITY_MEASURE_COMPONENT
  (pair.1.map (C.amp imcIn imcOut imt),
   pair.2.map (fun l => l.map (C.sigma imcIn imcOut imt)))

/-- One iteration of the member loop (lines 226-288): update the sites
context with the member's depth parameters, evaluate and convert the
member, and accumulate `lnmu += w * lmean` and
`lnsd2[j] += w * (lmean^2 + lsd[j]^2)` elementwise. -/
def engineStep (M : MultiGmpe) (C : ConvModel) (depthSelect : DepthFn)
    (siteAmps : SiteAmpFn) (rup : Rup) (dists : Bundle) (imt : IMT)
    (stddevTypes : List String)
    (acc : Bundle × List ℚ × List (List ℚ)) (t : ℚ × Gmpe × Bool) :
    Bundle × List ℚ × List (List ℚ) :=
  let sites1 := depthSelect acc.1 t.2.1
  let ms := memberMeanSd M C siteAmps sites1 rup dists imt stddevTypes t.2.1 t.2.2
  (sites1,
   List.zipWith (fun a m => a + t.1 * m) acc.2.1 ms.1,
   List.zipWith
     (fun l2 sdj => List.zipWith3 (fun a m s => a + t.1 * (m ^ 2 + s ^ 2)) l2 ms.1 sdj)
     acc.2.2 ms.2)

/-- The (weight, member, has-site) triples iterated by the member loop:
lines 183-186 select `WEIGHTS` or `WEIGHTS_LARGE_DISTANCE`, and the loop
reads `wts[i]`, `self.GMPES[i]` and `self.HAS_SITE[i]`. -/
def memberTriples (M : MultiGmpe) (largeDist : Bool) : List (ℚ × Gmpe × Bool) :=
  (if largeDist then M.WEIGHTS_LARGE_DISTANCE else M.WEIGHTS).zip
    (M.GMPES.zip M.HAS_SITE)

/-- Lines 178-293 of `__get_mean_and_stddevs`, acting on the already
flattened contexts: select the weight set, allocate the accumulators from
`sites.vs30`, check the requested stddev types, run the member loop, and
subtract `lnmu^2` from each raw second moment.  Returns the final sites
context (mutated by the depth-parameter updates) together with `lnmu` and
the list of variances (`lnsd2` after the subtraction, before `np.sqrt`). -/
def flatCombine (M : MultiGmpe) (C : ConvModel) (depthSelect : DepthFn)
    (siteAmps : SiteAmpFn) (sites : Bundle) (rup : Rup) (dists : Bundle)
    (imt : IMT) (stddevTypes : List String) (largeDist : Bool) :
    Except EngineError (Bundle × List ℚ × List (List ℚ)) :=
  match lookupField sites "vs30" with
  | none => Except.error EngineError.missingVs30
  | some vs30 =>
    let n := vs30.data.length
    if ¬ stddevTypes.all (fun t => M.DEFINED_FOR_STANDARD_DEVIATION_TYPES.contains t) then
      Except.error EngineError.unavailableStddevType
    else
      let nT := stddevTypes.length
      let init : Bundle × List ℚ × List (List ℚ) :=
        (sites, List.replicate n (0 : ℚ), List.replicate nT (List.replicate n (0 : ℚ)))
      let r := (memberTriples M largeDist).foldl
        (engineStep M C depthSelect siteAmps rup dists imt stddevTypes) init
      Except.ok
        (r.1, r.2.1,
         r.2.2.map (fun l => List.zipWith (fun a m => a - m ^ 2) l r.2.1))

/-- The fields whose shapes participate in the shape check: every entry of
`__dict__` except `lons` and `lats` (the source compares the keys with
`is not`, which for interned attribute-name strings coincides with
inequality). -/
def isLonLat (k : String) : Bool :=
  k = "lons" || k = "lats"

/-- Lines 192-198: the shapes of all participating fields of a context. -/
def collectShapes (b : Bundle) : List (List ℕ) :=
  (b.filter (fun kv => ¬ isLonLat kv.1)).map (fun kv => kv.2.shape)

/-- Lines 206-213: `np.reshape(v, (-1,))` on every participating field. -/
def flattenField (kv : String × NDArr) : String × NDArr :=
  if isLonLat kv.1 then kv else (kv.1, ⟨[kv.2.data.length], kv.2.data⟩)

def flattenBundle (b : Bundle) : Bundle :=
  b.map flattenField

/-- Lines 296-301: `np.reshape(v, orig_shape)` on every participating
field (numpy requires the flat size to equal `orig_shape.prod`; in the
restore path the data length is unchanged from the validated input, so the
reshape succeeds and only the shape changes). -/
def restoreField (orig : List ℕ) (kv : String × NDArr) : String × NDArr :=
  if isLonLat kv.1 then kv else (kv.1, ⟨orig, kv.2.data⟩)

def restoreBundle (orig : List ℕ) (b : Bundle) : Bundle :=
  b.map (restoreField orig)

/-- The value produced by `__get_mean_and_stddevs` before the final
`np.sqrt`: the restored contexts and the reshaped mean and variance
arrays. -/
structure EvalVars where
  sitesOut : Bundle
  distsOut : Bundle
  lnmu : NDArr
  lnsd2 : List NDArr

/-- `__get_mean_and_stddevs` (lines 178-308) up to, but not including, the
final `np.sqrt`: validate that all participating site and distance fields
share one shape, flatten them, run the flat combination, then restore the
original shape on the contexts and on the outputs. -/
def getVars (M : MultiGmpe) (C : ConvModel) (depthSelect : DepthFn)
    (siteAmps : SiteAmpFn) (sites : Bundle) (rup : Rup) (dists : Bundle)
    (imt : IMT) (stddevTypes : List String) (largeDist : Bool) :
    Except EngineError EvalVars :=
  let shapes := collectShapes sites ++ collectShapes dists
  let shapeset := shapes.dedup
  if shapeset.length ≠ 1 then Except.error EngineError.shapeMismatch
  else
    let orig := shapeset.headD []
    let dists1 := flattenBundle dists
    let sites1 := flattenBundle sites
    match flatCombine M C depthSelect siteAmps sites1 rup dists1 imt stddevTypes largeDist with
    | Except.error e => Except.error e
    | Except.ok r =>
      Except.ok
        { sitesOut := restoreBundle orig r.1
          distsOut := restoreBundle orig dists1
          lnmu := ⟨orig, r.2.1⟩
          lnsd2 := r.2.2.map (fun l => (⟨orig, l⟩ : NDArr)) }

/-- Models `np.sqrt` on one element: NaN (here `none`) on a negative
argument, the real square root otherwise. -/
noncomputable def npSqrt (q : ℚ) : Option ℝ :=
  if q < 0 then none else some (Real.sqrt (q : ℝ))

/-- A shaped stddev array (the data may hold NaNs). -/
structure NDArrR where
  shape : List ℕ
  data : List (Option ℝ)

/-- The value returned by `__get_mean_and_stddevs`. -/
structure EvalStd where
  sitesOut : Bundle
  distsOut : Bundle
  lnmu : NDArr
  lnsd : List NDArrR

/-- `__get_mean_and_stddevs` (lines 178-308): `getVars` followed by the
elementwise `np.sqrt` of line 293 (the source takes the square roots
before restoring the shapes; taking them after, as here, maps the same
function over the same flat data). -/
noncomputable def getMeanAndStddevsAux (M : MultiGmpe) (C : ConvModel)
    (depthSelect : DepthFn) (siteAmps : SiteAmpFn) (sites : Bundle) (rup : Rup)
    (dists : Bundle) (imt : IMT) (stddevTypes : List String) (largeDist : Bool) :
    Except EngineError EvalStd :=
  (getVars M C depthSelect siteAmps sites rup dists imt stddevTypes largeDist).map
    (fun o =>
      { sitesOut := o.sitesOut
        distsOut := o.distsOut
        lnmu := o.lnmu
        lnsd := o.lnsd2.map (fun a => { shape := a.shape, data := a.data.map npSqrt }) })

/-- Elementwise masked overwrite, modelling
`near[rjb > cutoff] = far[rjb > cutoff]`. -/
def stompSelect {α : Type} (cutoff : ℚ) (rjb : List ℚ) (near far : List α) : List α :=
  List.zipWith3 (fun r nv fv => if cutoff < r then fv else nv) rjb near far

/-- `MultiGMPE.get_mean_and_stddevs` (lines 156-176): evaluate; when
`CUTOFF_DISTANCE` is set, evaluate again with the large-distance weights
and overwrite mean and stddevs elementwise wherever
`dists.rjb > dist_cutoff`. -/
noncomputable def get_mean_and_stddevs (M : MultiGmpe) (C : ConvModel)
    (depthSelect : DepthFn) (siteAmps : SiteAmpFn) (sites : Bundle) (rup : Rup)
    (dists : Bundle) (imt : IMT) (stddevTypes : List String) :
    Except EngineError EvalStd :=
  match getMeanAndStddevsAux M C depthSelect siteAmps sites rup dists imt stddevTypes false with
  | Except.error e => Except.error e
  | Except.ok out =>
    match M.CUTOFF_DISTANCE with
    | none => Except.ok out
    | some c =>
      match getMeanAndStddevsAux M C depthSelect siteAmps out.sitesOut rup out.distsOut
          imt stddevTypes true with
      | Except.error e => Except.error e
      | Except.ok outL =>
        let rjb := (lookupField outL.distsOut "rjb").getD ⟨[], []⟩
        Except.ok
          { sitesOut := outL.sitesOut
            distsOut := outL.distsOut
            lnmu := ⟨out.lnmu.shape, stompSelect c rjb.data out.lnmu.data outL.lnmu.data⟩
            lnsd := List.zipWith
              (fun a b => { shape := a.shape, data := stompSelect c rjb.data a.data b.data })
              out.lnsd outL.lnsd }

/-- Exceptions raised by `from_list`. -/
inductive FromListError where
  | weightSum : FromListError
  | weightCount : FromListError
  | notAGmpe : String → FromListError
  | missingDefaultSite : FromListError
  | defaultWeightCount : FromListError
  | defaultWeightSum : FromListError
deriving DecidableEq, Repr

def GmpeEntry.isGmpe : GmpeEntry → Bool
  | GmpeEntry.gmpe _ => true
  | GmpeEntry.notGmpe _ => false

/-- The repr of an entry, as interpolated into the
`"%s" is not a GMPE instance` message. -/
def GmpeEntry.reprName : GmpeEntry → String
  | GmpeEntry.gmpe _ => ""
  | GmpeEntry.notGmpe s => s

/-- The entries that are GMPE instances (after the validation loop this is
all of them). -/
def entryGmpes (entries : List GmpeEntry) : List Gmpe :=
  entries.filterMap (fun e =>
    match e with
    | GmpeEntry.gmpe g => some g
    | GmpeEntry.notGmpe _ => none)

/-- `set.union(*l)` over string sets (the sources only take unions of
nonempty argument lists). -/
def unionAll (l : List (List String)) : List String :=
  l.foldl (fun a b => a.union b) []

/-- `set.intersection(*l)`: the head intersected with every other member;
`[]` for an empty argument list (unreachable in `from_list`, where the
weight checks force a nonempty model list). -/
def interAll (l : List (List String)) : List String :=
  match l with
  | [] => []
  | h :: t => t.foldl (fun a b => a.filter (fun x => b.contains x)) h

/-- Lines 534-569 of `from_list`: validate `default_gmpes_for_site`
(instance check, equal weights when unspecified) and, when one or more
member lacks a site term, require the defaults, check the weight count and
the exact weight sum. -/
def siteDefaultsCheck (hasSiteList : List Bool)
    (defaultGmpesForSite : Option (List GmpeEntry))
    (defaultGmpesForSiteWeights : Option (List ℚ)) :
    Except FromListError (Option (List Gmpe) × Option (List ℚ)) :=
  let dsCheck : Except FromListError (Option (List Gmpe) × Option (List ℚ)) :=
    match defaultGmpesForSite with
    | some ds =>
      match ds.find? (fun e => ¬ e.isGmpe) with
      | some e => Except.error (FromListError.notAGmpe e.reprName)
      | none =>
        let dsw :=
          match defaultGmpesForSiteWeights with
          | none => List.replicate ds.length ((1 : ℚ) / ds.length)
          | some w => w
        Except.ok (some (entryGmpes ds), some dsw)
    | none => Except.ok (none, defaultGmpesForSiteWeights)
  match dsCheck with
  | Except.error e => Except.error e
  | Except.ok dsPair =>
    if hasSiteList.all (fun b => b) then Except.ok dsPair
    else
      match dsPair.1 with
      | none => Except.error FromListError.missingDefaultSite
      | some ds =>
        let dsw :=
          match dsPair.2 with
          | none => List.replicate ds.length ((1 : ℚ) / ds.length)
          | some w => w
        if dsw.length ≠ ds.length then Except.error FromListError.defaultWeightCount
        else if dsw.sum ≠ 1 then Except.error FromListError.defaultWeightSum
        else Except.ok (some ds, some dsw)

/-- `MultiGMPE.from_list` (lines 409-595): check the weight sum (tolerance
1e-7), the weight count, and that every entry is a GMPE instance; derive
the capability attributes; check the default-site configuration; and
unconditionally add `vs30` to the required site parameters.  The source
performs no tectonic-region validation and never reads
`DEFINED_FOR_TECTONIC_REGION_TYPE`. -/
def from_list (entries : List GmpeEntry) (weights : List ℚ) (imc : IMC)
    (defaultGmpesForSite : Option (List GmpeEntry))
    (defaultGmpesForSiteWeights : Option (List ℚ)) (referenceVs30 : ℚ) :
    Except FromListError MultiGmpe :=
  if ¬ |weights.sum - 1| ≤ 1 / 10000000 then Except.error FromListError.weightSum
  else if weights.length ≠ entries.length then Except.error FromListError.weightCount
  else
    match entries.find? (fun e => ¬ e.isGmpe) with
    | some e => Except.error (FromListError.notAGmpe e.reprName)
    | none =>
      let gmpes := entryGmpes entries
      let hasSiteList := gmpes.map (fun g => g.REQUIRES_SITES_PARAMETERS.contains "vs30")
      match siteDefaultsCheck hasSiteList defaultGmpesForSite
          defaultGmpesForSiteWeights with
        | Except.error e => Except.error e
        | Except.ok finalDs =>
          Except.ok
            { GMPES := gmpes
              WEIGHTS := weights
              DEFINED_FOR_INTENSITY_MEASURE_TYPES :=
                unionAll (gmpes.map (fun g => g.DEFINED_FOR_INTENSITY_MEASURE_TYPES))
              ALL_GMPES_HAVE_PGV :=
                gmpes.all (fun g => g.DEFINED_FOR_INTENSITY_MEASURE_TYPES.contains "PGV")
              IMCs := gmpes.map (fun g => g.DEFINED_FOR_INTENSITY_MEASURE_COMPONENT)
              DEFINED_FOR_INTENSITY_MEASURE_COMPONENT := imc
              DEFINED_FOR_STANDARD_DEVIATION_TYPES :=
                interAll (gmpes.map (fun g => g.DEFINED_FOR_STANDARD_DEVIATION_TYPES))
              REQUIRES_SITES_PARAMETERS :=
                (unionAll (gmpes.map (fun g => g.REQUIRES_SITES_PARAMETERS))).union ["vs30"]
              HAS_SITE := hasSiteList
              DEFAULT_GMPES_FOR_SITE := finalDs.1
              DEFAULT_GMPES_FOR_SITE_WEIGHTS := finalDs.2
              REFERENCE_VS30 := referenceVs30
              REQUIRES_RUPTURE_PARAMETERS :=
                unionAll (gmpes.map (fun g => g.REQUIRES_RUPTURE_PARAMETERS))
              REQUIRES_DISTANCES :=
                unionAll (gmpes.map (fun g => g.REQUIRES_DISTANCES))
              CUTOFF_DISTANCE := none
              WEIGHTS_LARGE_DISTANCE := [] }

/-- Exceptions raised by `filter_gmpe_list`. -/
inductive FilterError where
  /-- `np.max`/`np.min` of an empty period list raises `ValueError`. -/
  | emptyPeriods : FilterError
  /-- Line 726 attempts `raise Exception('No applicable GMPEs from GMPE
  list for %s' % val)`, but no variable `val` is in scope, so evaluating
  the message raises `NameError: name 'val' is not defined` instead of the
  intended no-applicable-GMPEs exception. -/
  | nameErrorVal : FilterError
deriving DecidableEq, Repr

/-- `np.max(get_gmpe_sa_periods(g))`. -/
def perMaxG (g : Gmpe) : ℚ :=
  match g.saPeriods with
  | [] => 0
  | h :: t => t.foldl max h

/-- `np.min(get_gmpe_sa_periods(g))`. -/
def perMinG (g : Gmpe) : ℚ :=
  match g.saPeriods with
  | [] => 0
  | h :: t => t.foldl min h

/-- Whether `filter_gmpe_list` keeps a model for the given IMT. -/
def keepsFor (imt : IMT) (g : Gmpe) : Bool :=
  match imt with
  | IMT.PGA => g.nonSaCoeffs.contains IMT.PGA
  | IMT.PGV =>
    g.nonSaCoeffs.contains IMT.PGV || (perMaxG g ≥ 1 && perMinG g ≤ 1)
  | IMT.SA p => perMaxG g ≥ p && perMinG g ≤ p

/-- `filter_gmpe_list` (lines 687-732): drop the models not applicable to
the IMT and rescale the kept weights by their sum. -/
def filter_gmpe_list (gmpes : List Gmpe) (wts : List ℚ) (imt : IMT) :
    Except FilterError (List Gmpe × List ℚ) :=
  if gmpes.any (fun g => g.saPeriods.isEmpty) then Except.error FilterError.emptyPeriods
  else
    let sgmpe := gmpes.filter (keepsFor imt)
    let swts := ((gmpes.zip wts).filter (fun gw => keepsFor imt gw.1)).map (fun gw => gw.2)
    if sgmpe.length = 0 then Except.error FilterError.nameErrorVal
    else Except.ok (sgmpe, swts.map (fun w => w / swts.sum))

/-- The sites context as it stands after the member loop: the
depth-parameter update applied once per member. -/
def sitesAfter (depthSelect : DepthFn) (b : Bundle) (ts : List (ℚ × Gmpe × Bool)) : Bundle :=
  ts.foldl (fun bb t => depthSelect bb t.2.1) b

/-- The per-member convention-converted outputs, with the sites context
threaded through the depth-parameter updates exactly as in the loop. -/
def memberSeq (M : MultiGmpe) (C : ConvModel) (depthSelect : DepthFn)
    (siteAmps : SiteAmpFn) (rup : Rup) (dists : Bundle) (imt : IMT)
    (stddevTypes : List String) :
    Bundle → List (ℚ × Gmpe × Bool) → List (List ℚ × List (List ℚ))
  | _, [] => []
  | b, t :: ts =>
    let b1 := depthSelect b t.2.1
    memberMeanSd M C siteAmps b1 rup dists imt stddevTypes t.2.1 t.2.2 ::
      memberSeq M C depthSelect siteAmps rup dists imt stddevTypes b1 ts

/-- Extracts the payload of a successful result. -/
def exOk {ε α : Type} (e : Except ε α) (d : α) : α :=
  match e with
  | Except.ok a => a
  | Except.error _ => d

/-! ### Elementwise list lemmas -/

theorem replicateGetD {α : Type} (n k : ℕ) (d : α) :
    (List.replicate n d).getD k d = d := by
  induction n generalizing k with
  | zero => simp [List.getD]
  | succ m ih =>
    cases k with
    | zero => simp [List.replicate]
    | succ j => simp [List.replicate]

theorem zipWithGetD {α β γ : Type} (f : α → β → γ) (da : α) (db : β) (dc : γ) :
    ∀ (as : List α) (bs : List β) (k : ℕ), k < as.length → k < bs.length →
      (List.zipWith f as bs).getD k dc = f (as.getD k da) (bs.getD k db) := by
  intro as
  induction as with
  | nil => intro bs k h _; simp at h
  | cons a as ih =>
    intro bs k h1 h2
    cases bs with
    | nil => simp at h2
    | cons b bs =>
      cases k with
      | zero => simp
      | succ j =>
        simp only [List.length_cons, Nat.succ_lt_succ_iff] at h1 h2
        simpa using ih bs j h1 h2

theorem zipWith3Length {α β γ δ : Type} (f : α → β → γ → δ) :
    ∀ (as : List α) (bs : List β) (cs : List γ),
      (List.zipWith3 f as bs cs).length = min as.length (min bs.length cs.length) := by
  intro as
  induction as with
  | nil => intro bs cs; simp [List.zipWith3]
  | cons a as ih =>
    intro bs cs
    cases bs with
    | nil => simp [List.zipWith3]
    | cons b bs =>
      cases cs with
      | nil => simp [List.zipWith3]
      | cons c cs =>
        simp only [List.zipWith3, List.length_cons, ih]
        omega

theorem zipWith3GetD {α β γ δ : Type} (f : α → β → γ → δ)
    (da : α) (db : β) (dc : γ) (dd : δ) :
    ∀ (as : List α) (bs : List β) (cs : List γ) (k : ℕ),
      k < as.length → k < bs.length → k < cs.length →
      (List.zipWith3 f as bs cs).getD k dd =
        f (as.getD k da) (bs.getD k db) (cs.getD k dc) := by
  intro as
  induction as with
  | nil => intro bs cs k h _ _; simp at h
  | cons a as ih =>
    intro bs cs k h1 h2 h3
    cases bs with
    | nil => simp at h2
    | cons b bs =>
      cases cs with
      | nil => simp at h3
      | cons c cs =>
        cases k with
        | zero => simp [List.zipWith3]
        | succ j =>
          simp only [List.length_cons, Nat.succ_lt_succ_iff] at h1 h2 h3
          simpa [List.zipWith3] using ih bs cs j h1 h2 h3

theorem mapGetD {α β : Type} (f : α → β) (da : α) (db : β) :
    ∀ (l : List α) (k : ℕ), k < l.length →
      (l.map f).getD k db = f (l.getD k da) := by
  intro l
  induction l with
  | nil => intro k h; simp at h
  | cons a l ih =>
    intro k h
    cases k with
    | zero => simp
    | succ j =>
      simp only [List.length_cons, Nat.succ_lt_succ_iff] at h
      simpa using ih j h

/-! ### Characterisation of the accumulation loop -/

/-- The length discipline of the member outputs: every member returns a
mean array of `n` sites and one stddev array of `n` sites per requested
uncertainty type. -/
def goodOutputs (n nT : ℕ) (ps : List (List ℚ × List (List ℚ))) : Prop :=
  ∀ p ∈ ps, p.1.length = n ∧ p.2.length = nT ∧
    ∀ j, j < nT → (p.2.getD j []).length = n

theorem memberSeq_cons (M : MultiGmpe) (C : ConvModel) (depthSelect : DepthFn)
    (siteAmps : SiteAmpFn) (rup : Rup) (dists : Bundle) (imt : IMT)
    (stddevTypes : List String) (b : Bundle) (t : ℚ × Gmpe × Bool)
    (ts : List (ℚ × Gmpe × Bool)) :
    memberSeq M C depthSelect siteAmps rup dists imt stddevTypes b (t :: ts) =
      memberMeanSd M C siteAmps (depthSelect b t.2.1) rup dists imt stddevTypes
          t.2.1 t.2.2 ::
        memberSeq M C depthSelect siteAmps rup dists imt stddevTypes
          (depthSelect b t.2.1) ts := rfl

/-- The member loop, characterised: the final sites context is the folded
depth update, lengths are preserved, and the accumulators hold the running
weighted sums elementwise. -/
theorem foldl_engineStep_spec (M : MultiGmpe) (C : ConvModel)
    (depthSelect : DepthFn) (siteAmps : SiteAmpFn) (rup : Rup) (dists : Bundle)
    (imt : IMT) (stddevTypes : List String) (n : ℕ) :
    ∀ (L : List (ℚ × Gmpe × Bool)) (b : Bundle) (mu : List ℚ) (s2 : List (List ℚ)),
    mu.length = n → s2.length = stddevTypes.length →
    (∀ j, j < stddevTypes.length → (s2.getD j []).length = n) →
    goodOutputs n stddevTypes.length
      (memberSeq M C depthSelect siteAmps rup dists imt stddevTypes b L) →
    (List.foldl (engineStep M C depthSelect siteAmps rup dists imt stddevTypes)
        (b, mu, s2) L).1 = sitesAfter depthSelect b L ∧
    (List.foldl (engineStep M C depthSelect siteAmps rup dists imt stddevTypes)
        (b, mu, s2) L).2.1.length = n ∧
    (List.foldl (engineStep M C depthSelect siteAmps rup dists imt stddevTypes)
        (b, mu, s2) L).2.2.length = stddevTypes.length ∧
    (∀ j, j < stddevTypes.length →
      ((List.foldl (engineStep M C depthSelect siteAmps rup dists imt stddevTypes)
          (b, mu, s2) L).2.2.getD j []).length = n) ∧
    (∀ k, k < n →
      (List.foldl (engineStep M C depthSelect siteAmps rup dists imt stddevTypes)
          (b, mu, s2) L).2.1.getD k 0 =
        mu.getD k 0 +
          (List.zipWith (fun (t : ℚ × Gmpe × Bool) (p : List ℚ × List (List ℚ)) =>
              t.1 * p.1.getD k 0) L
            (memberSeq M C depthSelect siteAmps rup dists imt stddevTypes b L)).sum) ∧
    (∀ j, j < stddevTypes.length → ∀ k, k < n →
      ((List.foldl (engineStep M C depthSelect siteAmps rup dists imt stddevTypes)
          (b, mu, s2) L).2.2.getD j []).getD k 0 =
        (s2.getD j []).getD k 0 +
          (List.zipWith (fun (t : ℚ × Gmpe × Bool) (p : List ℚ × List (List ℚ)) =>
              t.1 * ((p.1.getD k 0) ^ 2 + ((p.2.getD j []).getD k 0) ^ 2)) L
            (memberSeq M C depthSelect siteAmps rup dists imt stddevTypes b L)).sum) := by
  intro L
  induction L with
  | nil =>
    intro b mu s2 hmu hs2 hinner _
    refine ⟨rfl, hmu, hs2, hinner, ?_, ?_⟩
    · intro k _; simp [memberSeq]
    · intro j _ k _; simp [memberSeq]
  | cons t ts ih =>
    intro b mu s2 hmu hs2 hinner hgood
    rw [memberSeq_cons] at hgood
    have hms := hgood _ (List.mem_cons_self _ _)
    have hgood' : goodOutputs n stddevTypes.length
        (memberSeq M C depthSelect siteAmps rup dists imt stddevTypes
          (depthSelect b t.2.1) ts) := by
      intro p hp
      exact hgood p (List.mem_cons_of_mem _ hp)
    set b1 := depthSelect b t.2.1 with hb1
    set ms := memberMeanSd M C siteAmps b1 rup dists imt stddevTypes t.2.1 t.2.2 with hmsdef
    set mu1 := List.zipWith (fun a m => a + t.1 * m) mu ms.1 with hmu1
    set s21 := List.zipWith
        (fun l2 sdj => List.zipWith3 (fun a m s => a + t.1 * (m ^ 2 + s ^ 2)) l2 ms.1 sdj)
        s2 ms.2 with hs21
    have hstep : engineStep M C depthSelect siteAmps rup dists imt stddevTypes
        (b, mu, s2) t = (b1, mu1, s21) := rfl
    have hmu1len : mu1.length = n := by
      rw [hmu1, List.length_zipWith, hmu, hms.1]
      omega
    have hs21len : s21.length = stddevTypes.length := by
      rw [hs21, List.length_zipWith, hs2, hms.2.1]
      omega
    have hinner1 : ∀ j, j < stddevTypes.length → (s21.getD j []).length = n := by
      intro j hj
      rw [hs21, zipWithGetD _ [] [] [] s2 ms.2 j (by omega) (by rw [hms.2.1]; exact hj)]
      rw [zipWith3Length, hinner j hj, hms.1, hms.2.2 j hj]
      omega
    have := ih b1 mu1 s21 hmu1len hs21len hinner1 hgood'
    rw [List.foldl_cons, hstep]
    rw [memberSeq_cons]
    refine ⟨?_, this.2.1, this.2.2.1, this.2.2.2.1, ?_, ?_⟩
    · rw [this.1]
      rfl
    · intro k hk
      rw [this.2.2.2.2.1 k hk]
      have hkmu : k < mu.length := by omega
      have hkm : k < ms.1.length := by rw [hms.1]; exact hk
      rw [hmu1, zipWithGetD _ 0 0 0 mu ms.1 k hkmu hkm]
      rw [List.zipWith_cons_cons, List.sum_cons]
      ring
    · intro j hj k hk
      rw [this.2.2.2.2.2 j hj k hk]
      have hjs : j < s2.length := by omega
      have hjm : j < ms.2.length := by rw [hms.2.1]; exact hj
      rw [hs21, zipWithGetD _ [] [] [] s2 ms.2 j hjs hjm]
      rw [zipWith3GetD _ 0 0 0 0 _ _ _ k (by rw [hinner j hj]; exact hk)
        (by rw [hms.1]; exact hk) (by rw [hms.2.2 j hj]; exact hk)]
      rw [List.zipWith_cons_cons, List.sum_cons]
      ring

theorem replicateGetDLt {α : Type} (m j : ℕ) (x d : α) (h : j < m) :
    (List.replicate m x).getD j d = x := by
  induction m generalizing j with
  | zero => omega
  | succ i ih =>
    cases j with
    | zero => simp [List.replicate]
    | succ l =>
      simp only [List.replicate]
      exact ih l (by omega)

/-- `sum_i w_i * m_i[k]`: the weighted sum of the members'
convention-converted means at site `k`. -/
def weightedMeanAt (L : List (ℚ × Gmpe × Bool))
    (ps : List (List ℚ × List (List ℚ))) (k : ℕ) : ℚ :=
  (List.zipWith (fun t p => t.1 * p.1.getD k 0) L ps).sum

/-- `sum_i w_i * (m_i[k]^2 + s_i[j][k]^2)`: the weighted raw second moment
for uncertainty type `j` at site `k`. -/
def rawSecondMomentAt (L : List (ℚ × Gmpe × Bool))
    (ps : List (List ℚ × List (List ℚ))) (j k : ℕ) : ℚ :=
  (List.zipWith (fun t p =>
      t.1 * ((p.1.getD k 0) ^ 2 + ((p.2.getD j []).getD k 0) ^ 2)) L ps).sum

/-- Characterisation of the flat combination (lines 178-293): on success
the mean is the weighted sum of the member means and each variance is the
weighted raw second moment minus the squared mean, elementwise. -/
theorem flatCombine_spec (M : MultiGmpe) (C : ConvModel) (depthSelect : DepthFn)
    (siteAmps : SiteAmpFn) (sites : Bundle) (rup : Rup) (dists : Bundle)
    (imt : IMT) (stddevTypes : List String) (largeDist : Bool) (vs30 : NDArr)
    (r : Bundle × List ℚ × List (List ℚ))
    (hvs : lookupField sites "vs30" = some vs30)
    (hstd : (stddevTypes.all
      (fun t => M.DEFINED_FOR_STANDARD_DEVIATION_TYPES.contains t)) = true)
    (hgood : goodOutputs vs30.data.length stddevTypes.length
      (memberSeq M C depthSelect siteAmps rup dists imt stddevTypes sites
        (memberTriples M largeDist)))
    (hr : flatCombine M C depthSelect siteAmps sites rup dists imt stddevTypes
      largeDist = Except.ok r) :
    r.1 = sitesAfter depthSelect sites (memberTriples M largeDist) ∧
    r.2.1.length = vs30.data.length ∧
    r.2.2.length = stddevTypes.length ∧
    (∀ j, j < stddevTypes.length → (r.2.2.getD j []).length = vs30.data.length) ∧
    (∀ k, k < vs30.data.length →
      r.2.1.getD k 0 = weightedMeanAt (memberTriples M largeDist)
        (memberSeq M C depthSelect siteAmps rup dists imt stddevTypes sites
          (memberTriples M largeDist)) k) ∧
    (∀ j, j < stddevTypes.length → ∀ k, k < vs30.data.length →
      (r.2.2.getD j []).getD k 0 =
        rawSecondMomentAt (memberTriples M largeDist)
            (memberSeq M C depthSelect siteAmps rup dists imt stddevTypes sites
              (memberTriples M largeDist)) j k -
          (weightedMeanAt (memberTriples M largeDist)
            (memberSeq M C depthSelect siteAmps rup dists imt stddevTypes sites
              (memberTriples M largeDist)) k) ^ 2) := by
  unfold flatCombine at hr
  rw [hvs] at hr
  simp only [hstd, not_true, ite_false] at hr
  set n := vs30.data.length with hn
  set nT := stddevTypes.length with hnT
  set L := memberTriples M largeDist with hL
  have hspec := foldl_engineStep_spec M C depthSelect siteAmps rup dists imt
    stddevTypes n L sites (List.replicate n 0) (List.replicate nT (List.replicate n 0))
    (by simp) (by simp)
    (by
      intro j hj
      rw [replicateGetDLt nT j _ [] hj]
      simp)
    hgood
  set F := List.foldl (engineStep M C depthSelect siteAmps rup dists imt stddevTypes)
    (sites, List.replicate n 0, List.replicate nT (List.replicate n 0)) L with hF
  have hrval : r = (F.1, F.2.1,
      F.2.2.map (fun l => List.zipWith (fun a m => a - m ^ 2) l F.2.1)) := by
    cases hr
    rfl
  rw [hrval]
  refine ⟨hspec.1, hspec.2.1, ?_, ?_, ?_, ?_⟩
  · simp [hspec.2.2.1]
  · intro j hj
    rw [mapGetD _ [] [] F.2.2 j (by rw [hspec.2.2.1]; exact hj)]
    rw [List.length_zipWith, hspec.2.2.2.1 j hj, hspec.2.1]
    omega
  · intro k hk
    rw [hspec.2.2.2.2.1 k hk, replicateGetD]
    rw [weightedMeanAt]
    ring
  · intro j hj k hk
    rw [mapGetD _ [] [] F.2.2 j (by rw [hspec.2.2.1]; exact hj)]
    rw [zipWithGetD _ 0 0 0 (F.2.2.getD j []) F.2.1 k
      (by rw [hspec.2.2.2.1 j hj]; exact hk) (by rw [hspec.2.1]; exact hk)]
    rw [hspec.2.2.2.2.2 j hj k hk, hspec.2.2.2.2.1 k hk]
    rw [replicateGetDLt nT j _ [] hj, replicateGetD]
    rw [weightedMeanAt, rawSecondMomentAt]
    ring

/-- Decomposition of a successful `getVars` run: the shape validation
found exactly one shape, the flat combination succeeded on the flattened
contexts, and the output is the restored/reshaped assembly. -/
theorem getVars_spec (M : MultiGmpe) (C : ConvModel) (depthSelect : DepthFn)
    (siteAmps : SiteAmpFn) (sites : Bundle) (rup : Rup) (dists : Bundle)
    (imt : IMT) (stddevTypes : List String) (largeDist : Bool) (out : EvalVars)
    (h : getVars M C depthSelect siteAmps sites rup dists imt stddevTypes largeDist =
      Except.ok out) :
    ∃ orig r,
      (collectShapes sites ++ collectShapes dists).dedup = [orig] ∧
      flatCombine M C depthSelect siteAmps (flattenBundle sites) rup
        (flattenBundle dists) imt stddevTypes largeDist = Except.ok r ∧
      out.sitesOut = restoreBundle orig r.1 ∧
      out.distsOut = restoreBundle orig (flattenBundle dists) ∧
      out.lnmu = (⟨orig, r.2.1⟩ : NDArr) ∧
      out.lnsd2 = r.2.2.map (fun l => (⟨orig, l⟩ : NDArr)) := by
  unfold getVars at h
  by_cases hlen : (collectShapes sites ++ collectShapes dists).dedup.length = 1
  · obtain ⟨orig, horig⟩ := List.length_eq_one.mp hlen
    rw [if_neg (by omega)] at h
    refine ⟨orig, ?_⟩
    rw [horig] at h
    simp only [List.headD_cons] at h
    cases hfc : flatCombine M C depthSelect siteAmps (flattenBundle sites) rup
        (flattenBundle dists) imt stddevTypes largeDist with
    | error e => rw [hfc] at h; cases h
    | ok r =>
      rw [hfc] at h
      simp only at h
      cases h
      exact ⟨r, horig, rfl, rfl, rfl, rfl, rfl⟩
  · rw [if_pos hlen] at h
    cases h

/-- Pointwise formulas for a successful `__get_mean_and_stddevs` run: the
mean is the weighted sum of the members' convention-converted means and
each stddev is `np.sqrt` of the weighted raw second moment minus the
squared mean. -/
theorem engine_pointwise (M : MultiGmpe) (C : ConvModel)
    (depthSelect : DepthFn) (siteAmps : SiteAmpFn) (sites : Bundle) (rup : Rup)
    (dists : Bundle) (imt : IMT) (stddevTypes : List String) (out : EvalStd)
    (vs30 : NDArr)
    (hvs : lookupField (flattenBundle sites) "vs30" = some vs30)
    (hstd : (stddevTypes.all
      (fun t => M.DEFINED_FOR_STANDARD_DEVIATION_TYPES.contains t)) = true)
    (hgood : goodOutputs vs30.data.length stddevTypes.length
      (memberSeq M C depthSelect siteAmps rup (flattenBundle dists) imt stddevTypes
        (flattenBundle sites) (memberTriples M false)))
    (h : getMeanAndStddevsAux M C depthSelect siteAmps sites rup dists imt
      stddevTypes false = Except.ok out) :
    (∀ k, k < vs30.data.length →
      out.lnmu.data.getD k 0 =
        weightedMeanAt (memberTriples M false)
          (memberSeq M C depthSelect siteAmps rup (flattenBundle dists) imt
            stddevTypes (flattenBundle sites) (memberTriples M false)) k) ∧
    (∀ j, j < stddevTypes.length → ∀ k, k < vs30.data.length →
      (out.lnsd.getD j ⟨[], []⟩).data.getD k none =
        npSqrt (rawSecondMomentAt (memberTriples M false)
            (memberSeq M C depthSelect siteAmps rup (flattenBundle dists) imt
              stddevTypes (flattenBundle sites) (memberTriples M false)) j k -
          (weightedMeanAt (memberTriples M false)
            (memberSeq M C depthSelect siteAmps rup (flattenBundle dists) imt
              stddevTypes (flattenBundle sites) (memberTriples M false)) k) ^ 2)) := by
  unfold getMeanAndStddevsAux at h
  cases hgv : getVars M C depthSelect siteAmps sites rup dists imt stddevTypes false with
  | error e => rw [hgv] at h; cases h
  | ok o =>
    rw [hgv] at h
    simp only [Except.map] at h
    cases h
    obtain ⟨orig, r, _, hfc, _, _, hmu, hsd2⟩ :=
      getVars_spec M C depthSelect siteAmps sites rup dists imt stddevTypes false o hgv
    have hspec := flatCombine_spec M C depthSelect siteAmps (flattenBundle sites) rup
      (flattenBundle dists) imt stddevTypes false vs30 r hvs hstd hgood hfc
    constructor
    · intro k hk
      rw [hmu]
      exact hspec.2.2.2.2.1 k hk
    · intro j hj k hk
      have hjlen : j < o.lnsd2.length := by
        rw [hsd2, List.length_map, hspec.2.2.1]
        exact hj
      rw [mapGetD (fun a => ({ shape := a.shape, data := a.data.map npSqrt } : NDArrR))
        ⟨[], []⟩ ⟨[], []⟩ o.lnsd2 j hjlen]
      rw [hsd2, mapGetD (fun l => (⟨orig, l⟩ : NDArr)) [] ⟨[], []⟩ r.2.2 j
        (by rw [hspec.2.2.1]; exact hj)]
      simp only
      rw [mapGetD npSqrt 0 none (r.2.2.getD j []) k
        (by rw [hspec.2.2.2.1 j hj]; exact hk)]
      rw [hspec.2.2.2.2.2 j hj k hk]

/-! ### C1 -/

/-- C1: for every weighted model set with weights summing to 1 and every
evaluation call, the combined mean equals the weighted sum of the members'
convention-converted means (`mean[k] = sum_i w_i * m_i[k]`), and for each
requested uncertainty type the combined standard deviation equals the
square root (`np.sqrt`, NaN on a negative radicand) of
`sum_i w_i * (m_i[k]^2 + s_ij[k]^2) - mean[k]^2`, the law-of-total-variance
mixture formula, elementwise over sites. -/
theorem mean_and_stddevs_mixture_formula (M : MultiGmpe) (C : ConvModel)
    (depthSelect : DepthFn) (siteAmps : SiteAmpFn) (sites : Bundle) (rup : Rup)
    (dists : Bundle) (imt : IMT) (stddevTypes : List String) (out : EvalStd)
    (vs30 : NDArr)
    (hsum : M.WEIGHTS.sum = 1)
    (hlenW : M.WEIGHTS.length = M.GMPES.length)
    (hlenH : M.HAS_SITE.length = M.GMPES.length)
    (hvs : lookupField (flattenBundle sites) "vs30" = some vs30)
    (hstd : (stddevTypes.all
      (fun t => M.DEFINED_FOR_STANDARD_DEVIATION_TYPES.contains t)) = true)
    (hgood : goodOutputs vs30.data.length stddevTypes.length
      (memberSeq M C depthSelect siteAmps rup (flattenBundle dists) imt stddevTypes
        (flattenBundle sites) (memberTriples M false)))
    (h : getMeanAndStddevsAux M C depthSelect siteAmps sites rup dists imt
      stddevTypes false = Except.ok out) :
    (∀ k, k < vs30.data.length →
      out.lnmu.data.getD k 0 =
        weightedMeanAt (memberTriples M false)
          (memberSeq M C depthSelect siteAmps rup (flattenBundle dists) imt
            stddevTypes (flattenBundle sites) (memberTriples M false)) k) ∧
    (∀ j, j < stddevTypes.length → ∀ k, k < vs30.data.length →
      (out.lnsd.getD j ⟨[], []⟩).data.getD k none =
        npSqrt (rawSecondMomentAt (memberTriples M false)
            (memberSeq M C depthSelect siteAmps rup (flattenBundle dists) imt
              stddevTypes (flattenBundle sites) (memberTriples M false)) j k -
          (weightedMeanAt (memberTriples M false)
            (memberSeq M C depthSelect siteAmps rup (flattenBundle dists) imt
              stddevTypes (flattenBundle sites) (memberTriples M false)) k) ^ 2)) :=
  engine_pointwise M C depthSelect siteAmps sites rup dists imt stddevTypes out
    vs30 hvs hstd hgood h

/-- A placeholder result used when extracting a known-successful value. -/
def dummyStd : EvalStd :=
  { sitesOut := [], distsOut := [], lnmu := ⟨[], []⟩, lnsd := [] }

/-- Identity convention converters with an additive velocity relation, for
concrete evaluations. -/
def c1Conv : ConvModel :=
  { amp := fun _ _ _ x => x
    sigma := fun _ _ _ x => x
    psa102pgvMean := fun m s => m + s
    psa102pgvSd := fun _ s => s }

def c1Gmpe : Gmpe :=
  { DEFINED_FOR_TECTONIC_REGION_TYPE := "Active Shallow Crust"
    DEFINED_FOR_INTENSITY_MEASURE_TYPES := ["PGA", "PGV", "SA"]
    DEFINED_FOR_INTENSITY_MEASURE_COMPONENT := IMC.greaterOfTwoHorizontal
    DEFINED_FOR_STANDARD_DEVIATION_TYPES := ["Total"]
    REQUIRES_SITES_PARAMETERS := ["vs30"]
    REQUIRES_RUPTURE_PARAMETERS := ["mag"]
    REQUIRES_DISTANCES := ["rjb"]
    saPeriods := [1/10, 1, 2]
    nonSaCoeffs := [IMT.PGA, IMT.PGV]
    evalAt := fun _ _ _ _ _ => ([2], [[3]]) }

def c1M : MultiGmpe :=
  { GMPES := [c1Gmpe]
    WEIGHTS := [1]
    DEFINED_FOR_INTENSITY_MEASURE_TYPES := ["PGA", "PGV", "SA"]
    ALL_GMPES_HAVE_PGV := true
    IMCs := [IMC.greaterOfTwoHorizontal]
    DEFINED_FOR_INTENSITY_MEASURE_COMPONENT := IMC.greaterOfTwoHorizontal
    DEFINED_FOR_STANDARD_DEVIATION_TYPES := ["Total"]
    REQUIRES_SITES_PARAMETERS := ["vs30"]
    HAS_SITE := [true]
    DEFAULT_GMPES_FOR_SITE := none
    DEFAULT_GMPES_FOR_SITE_WEIGHTS := none
    REFERENCE_VS30 := 760
    REQUIRES_RUPTURE_PARAMETERS := ["mag"]
    REQUIRES_DISTANCES := ["rjb"]
    CUTOFF_DISTANCE := none
    WEIGHTS_LARGE_DISTANCE := [] }

def c1Sites : Bundle := [("vs30", ⟨[1], [760]⟩)]

def c1Dists : Bundle := [("rjb", ⟨[1], [10]⟩)]

noncomputable def c1Out : EvalStd :=
  exOk (getMeanAndStddevsAux c1M c1Conv (fun b _ => b) (fun _ _ _ _ => [])
    c1Sites [] c1Dists IMT.PGA ["Total"] false) dummyStd

theorem mean_and_stddevs_mixture_formula_witness :
    c1Out.lnmu.data.getD 0 0 = 2 ∧
    (c1Out.lnsd.getD 0 ⟨[], []⟩).data.getD 0 none = npSqrt 9 := by
  have h := mean_and_stddevs_mixture_formula c1M c1Conv (fun b _ => b)
    (fun _ _ _ _ => []) c1Sites [] c1Dists IMT.PGA ["Total"] c1Out ⟨[1], [760]⟩
    (by simp [c1M]) (by simp [c1M, c1Gmpe]) (by simp [c1M, c1Gmpe]) rfl
    (by simp [c1M]) (by
      intro p hp
      simp only [memberTriples, c1M, memberSeq, memberMeanSd, c1Gmpe, c1Conv,
        List.zip_cons_cons, List.zip_nil_right, List.mem_cons] at hp
      simp only [List.not_mem_nil, or_false] at hp
      subst hp
      simp) rfl
  refine ⟨?_, ?_⟩
  · rw [h.1 0 (by decide)]
    simp only [memberTriples, c1M, memberSeq, memberMeanSd, c1Gmpe, c1Conv,
      weightedMeanAt, List.zip_cons_cons, List.zip_nil_right]
    norm_num
  · rw [h.2 0 (by decide) 0 (by decide)]
    congr 1
    simp only [memberTriples, c1M, memberSeq, memberMeanSd, c1Gmpe, c1Conv,
      weightedMeanAt, rawSecondMomentAt, List.zip_cons_cons, List.zip_nil_right]
    norm_num

/-! ### C8 -/

theorem npSqrt_sq (x : ℚ) (hx : 0 ≤ x) : npSqrt (x ^ 2) = some ((x : ℝ)) := by
  unfold npSqrt
  rw [if_neg (not_lt.mpr (by positivity))]
  congr 1
  push_cast
  exact Real.sqrt_sq (by exact_mod_cast hx)

/-- For a set with exactly one member at weight 1, the engine output is
the member's convention-converted output, elementwise. -/
theorem single_member_pointwise (M : MultiGmpe) (C : ConvModel)
    (depthSelect : DepthFn) (siteAmps : SiteAmpFn) (sites : Bundle) (rup : Rup)
    (dists : Bundle) (imt : IMT) (stddevTypes : List String) (out : EvalStd)
    (vs30 : NDArr) (g : Gmpe) (hs : Bool) (ms : List ℚ × List (List ℚ))
    (hg : M.GMPES = [g]) (hw : M.WEIGHTS = [1]) (hh : M.HAS_SITE = [hs])
    (hms : ms = memberMeanSd M C siteAmps (depthSelect (flattenBundle sites) g)
      rup (flattenBundle dists) imt stddevTypes g hs)
    (hvs : lookupField (flattenBundle sites) "vs30" = some vs30)
    (hstd : (stddevTypes.all
      (fun t => M.DEFINED_FOR_STANDARD_DEVIATION_TYPES.contains t)) = true)
    (hm1 : ms.1.length = vs30.data.length)
    (hm2 : ms.2.length = stddevTypes.length)
    (hm3 : ∀ j, j < stddevTypes.length → (ms.2.getD j []).length = vs30.data.length)
    (hnn : ∀ j, j < stddevTypes.length → ∀ k, k < vs30.data.length →
      0 ≤ (ms.2.getD j []).getD k 0)
    (h : getMeanAndStddevsAux M C depthSelect siteAmps sites rup dists imt
      stddevTypes false = Except.ok out) :
    (∀ k, k < vs30.data.length →
      out.lnmu.data.getD k 0 = ms.1.getD k 0) ∧
    (∀ j, j < stddevTypes.length → ∀ k, k < vs30.data.length →
      (out.lnsd.getD j ⟨[], []⟩).data.getD k none =
        some (((ms.2.getD j []).getD k 0 : ℚ) : ℝ)) := by
  have hT : memberTriples M false = [(1, g, hs)] := by
    simp [memberTriples, hw, hg, hh]
  have hseq : memberSeq M C depthSelect siteAmps rup (flattenBundle dists) imt
      stddevTypes (flattenBundle sites) (memberTriples M false) = [ms] := by
    rw [hT, memberSeq_cons, hms]
    rfl
  have hgood : goodOutputs vs30.data.length stddevTypes.length
      (memberSeq M C depthSelect siteAmps rup (flattenBundle dists) imt
        stddevTypes (flattenBundle sites) (memberTriples M false)) := by
    rw [hseq]
    intro p hp
    simp only [List.mem_cons, List.not_mem_nil, or_false] at hp
    subst hp
    exact ⟨hm1, hm2, hm3⟩
  have happ := engine_pointwise M C depthSelect siteAmps sites rup dists imt
    stddevTypes out vs30 hvs hstd hgood h
  constructor
  · intro k hk
    rw [happ.1 k hk, hseq, hT]
    simp [weightedMeanAt]
  · intro j hj k hk
    rw [happ.2 j hj k hk, hseq, hT]
    have harg : rawSecondMomentAt [(1, g, hs)] [ms] j k -
        (weightedMeanAt [(1, g, hs)] [ms] k) ^ 2 =
        ((ms.2.getD j []).getD k 0) ^ 2 := by
      simp [rawSecondMomentAt, weightedMeanAt]
    rw [harg, npSqrt_sq _ (hnn j hj k hk)]

/-- C8: for a weighted model set with exactly one member at weight 1.0,
`evaluate` returns exactly that member's convention-converted mean and,
for each requested uncertainty type, exactly that member's
convention-converted standard deviation: the combination degenerates to a
pass-through (the variance formula reduces to the member variance). -/
theorem single_member_passthrough (M : MultiGmpe) (C : ConvModel)
    (depthSelect : DepthFn) (siteAmps : SiteAmpFn) (sites : Bundle) (rup : Rup)
    (dists : Bundle) (imt : IMT) (stddevTypes : List String) (out : EvalStd)
    (vs30 : NDArr) (g : Gmpe) (hs : Bool) (ms : List ℚ × List (List ℚ))
    (hg : M.GMPES = [g]) (hw : M.WEIGHTS = [1]) (hh : M.HAS_SITE = [hs])
    (hms : ms = memberMeanSd M C siteAmps (depthSelect (flattenBundle sites) g)
      rup (flattenBundle dists) imt stddevTypes g hs)
    (hvs : lookupField (flattenBundle sites) "vs30" = some vs30)
    (hstd : (stddevTypes.all
      (fun t => M.DEFINED_FOR_STANDARD_DEVIATION_TYPES.contains t)) = true)
    (hm1 : ms.1.length = vs30.data.length)
    (hm2 : ms.2.length = stddevTypes.length)
    (hm3 : ∀ j, j < stddevTypes.length → (ms.2.getD j []).length = vs30.data.length)
    (hnn : ∀ j, j < stddevTypes.length → ∀ k, k < vs30.data.length →
      0 ≤ (ms.2.getD j []).getD k 0)
    (h : getMeanAndStddevsAux M C depthSelect siteAmps sites rup dists imt
      stddevTypes false = Except.ok out) :
    (∀ k, k < vs30.data.length →
      out.lnmu.data.getD k 0 = ms.1.getD k 0) ∧
    (∀ j, j < stddevTypes.length → ∀ k, k < vs30.data.length →
      (out.lnsd.getD j ⟨[], []⟩).data.getD k none =
        some (((ms.2.getD j []).getD k 0 : ℚ) : ℝ)) :=
  single_member_pointwise M C depthSelect siteAmps sites rup dists imt
    stddevTypes out vs30 g hs ms hg hw hh hms hvs hstd hm1 hm2 hm3 hnn h

noncomputable def c8Out : EvalStd :=
  exOk (getMeanAndStddevsAux c1M c1Conv (fun b _ => b) (fun _ _ _ _ => [])
    c1Sites [] c1Dists IMT.PGA ["Total"] false) dummyStd

theorem single_member_passthrough_witness :
    c8Out.lnmu.data.getD 0 0 = ([2] : List ℚ).getD 0 0 ∧
    (c8Out.lnsd.getD 0 ⟨[], []⟩).data.getD 0 none = some (((3 : ℚ) : ℝ)) := by
  have h := single_member_passthrough c1M c1Conv (fun b _ => b)
    (fun _ _ _ _ => []) c1Sites [] c1Dists IMT.PGA ["Total"] c8Out ⟨[1], [760]⟩
    c1Gmpe true ([2], [[3]]) rfl rfl rfl
    (by simp [memberMeanSd, c1Conv, c1Gmpe])
    rfl (by simp [c1M]) (by decide) (by decide) (by decide)
    (by
      intro j hj k hk
      have hj1 : j = 0 := by simpa using hj
      have hk1 : k = 0 := by simpa using hk
      subst hj1
      subst hk1
      norm_num)
    rfl
  exact ⟨h.1 0 (by decide), h.2 0 (by decide) 0 (by decide)⟩

/-! ### C3 -/

/-- When the shape validation produced the single shape `orig`, every
participating field of both contexts has shape `orig`. -/
theorem shape_all_eq (sites dists : Bundle) (orig : List ℕ)
    (hded : (collectShapes sites ++ collectShapes dists).dedup = [orig]) :
    (∀ kv ∈ sites, ¬ isLonLat kv.1 → kv.2.shape = orig) ∧
    (∀ kv ∈ dists, ¬ isLonLat kv.1 → kv.2.shape = orig) := by
  have hall : ∀ x ∈ collectShapes sites ++ collectShapes dists, x = orig := by
    intro x hx
    have : x ∈ (collectShapes sites ++ collectShapes dists).dedup :=
      List.mem_dedup.mpr hx
    rw [hded] at this
    simpa using this
  constructor
  · intro kv hmem hll
    refine hall kv.2.shape (List.mem_append.mpr (Or.inl ?_))
    unfold collectShapes
    exact List.mem_map.mpr ⟨kv, List.mem_filter.mpr ⟨hmem, by simpa using hll⟩, rfl⟩
  · intro kv hmem hll
    refine hall kv.2.shape (List.mem_append.mpr (Or.inr ?_))
    unfold collectShapes
    exact List.mem_map.mpr ⟨kv, List.mem_filter.mpr ⟨hmem, by simpa using hll⟩, rfl⟩

/-- There is a participating field whose shape witnesses `orig`. -/
theorem orig_mem_shapes (sites dists : Bundle) (orig : List ℕ)
    (hded : (collectShapes sites ++ collectShapes dists).dedup = [orig]) :
    orig ∈ collectShapes sites ++ collectShapes dists := by
  have : orig ∈ (collectShapes sites ++ collectShapes dists).dedup := by
    rw [hded]
    simp
  exact List.mem_dedup.mp this

/-- C3: for every evaluation call whose site and distance array fields
share one common shape `s` (possibly multi-dimensional), the returned mean
array and every returned standard-deviation array have exactly that
original input shape, not the internal flattened one-dimensional shape. -/
theorem output_shape_roundtrip (M : MultiGmpe) (C : ConvModel)
    (depthSelect : DepthFn) (siteAmps : SiteAmpFn) (sites : Bundle) (rup : Rup)
    (dists : Bundle) (imt : IMT) (stddevTypes : List String) (largeDist : Bool)
    (out : EvalStd) (s : List ℕ)
    (hsites : ∀ kv ∈ sites, ¬ isLonLat kv.1 → kv.2.shape = s)
    (hdists : ∀ kv ∈ dists, ¬ isLonLat kv.1 → kv.2.shape = s)
    (h : getMeanAndStddevsAux M C depthSelect siteAmps sites rup dists imt
      stddevTypes largeDist = Except.ok out) :
    out.lnmu.shape = s ∧ ∀ a ∈ out.lnsd, a.shape = s := by
  unfold getMeanAndStddevsAux at h
  cases hgv : getVars M C depthSelect siteAmps sites rup dists imt stddevTypes largeDist with
  | error e => rw [hgv] at h; cases h
  | ok o =>
    rw [hgv] at h
    simp only [Except.map] at h
    cases h
    obtain ⟨orig, r, hded, hfc, hso, hdo, hmu, hsd2⟩ :=
      getVars_spec M C depthSelect siteAmps sites rup dists imt stddevTypes largeDist o hgv
    have horig : orig = s := by
      have hm := orig_mem_shapes sites dists orig hded
      rcases List.mem_append.mp hm with hmem | hmem
      · unfold collectShapes at hmem
        obtain ⟨kv, hkv, hsh⟩ := List.mem_map.mp hmem
        have := List.mem_filter.mp hkv
        rw [← hsh]
        exact hsites kv this.1 (by simpa using this.2)
      · unfold collectShapes at hmem
        obtain ⟨kv, hkv, hsh⟩ := List.mem_map.mp hmem
        have := List.mem_filter.mp hkv
        rw [← hsh]
        exact hdists kv this.1 (by simpa using this.2)
    constructor
    · rw [hmu, horig]
    · intro a ha
      simp only [hsd2, List.map_map, List.mem_map] at ha
      obtain ⟨l, _, hl⟩ := ha
      rw [← hl, ← horig]
      rfl

def c3Sites : Bundle := [("vs30", ⟨[2, 3], [760, 760, 760, 760, 760, 760]⟩)]

def c3Dists : Bundle := [("rjb", ⟨[2, 3], [1, 2, 3, 4, 5, 6]⟩)]

noncomputable def c3Out : EvalStd :=
  exOk (getMeanAndStddevsAux c1M c1Conv (fun b _ => b) (fun _ _ _ _ => [])
    c3Sites [] c3Dists IMT.PGA ["Total"] false) dummyStd

theorem output_shape_roundtrip_witness :
    c3Out.lnmu.shape = [2, 3] ∧ ∀ a ∈ c3Out.lnsd, a.shape = [2, 3] :=
  output_shape_roundtrip c1M c1Conv (fun b _ => b) (fun _ _ _ _ => [])
    c3Sites [] c3Dists IMT.PGA ["Total"] false c3Out [2, 3]
    (by decide) (by decide) rfl

/-! ### C10 -/

/-- The sites context returned by the member loop is the folded
depth-parameter update of its input. -/
theorem foldl_engineStep_fst (M : MultiGmpe) (C : ConvModel)
    (depthSelect : DepthFn) (siteAmps : SiteAmpFn) (rup : Rup) (dists : Bundle)
    (imt : IMT) (stddevTypes : List String) :
    ∀ (L : List (ℚ × Gmpe × Bool)) (b : Bundle) (mu : List ℚ) (s2 : List (List ℚ)),
      (List.foldl (engineStep M C depthSelect siteAmps rup dists imt stddevTypes)
        (b, mu, s2) L).1 = sitesAfter depthSelect b L := by
  intro L
  induction L with
  | nil => intro b mu s2; rfl
  | cons t ts ih =>
    intro b mu s2
    rw [List.foldl_cons]
    exact ih (depthSelect b t.2.1) _ _

/-- On success, the sites context returned by the flat combination is the
folded depth update of the flattened input. -/
theorem flatCombine_ok_fst (M : MultiGmpe) (C : ConvModel)
    (depthSelect : DepthFn) (siteAmps : SiteAmpFn) (sites : Bundle) (rup : Rup)
    (dists : Bundle) (imt : IMT) (stddevTypes : List String) (largeDist : Bool)
    (r : Bundle × List ℚ × List (List ℚ))
    (hr : flatCombine M C depthSelect siteAmps sites rup dists imt stddevTypes
      largeDist = Except.ok r) :
    r.1 = sitesAfter depthSelect sites (memberTriples M largeDist) := by
  unfold flatCombine at hr
  cases hvs : lookupField sites "vs30" with
  | none => rw [hvs] at hr; cases hr
  | some vs30 =>
    rw [hvs] at hr
    by_cases hstd : (stddevTypes.all
        (fun t => M.DEFINED_FOR_STANDARD_DEVIATION_TYPES.contains t)) = true
    · simp only [hstd, not_true, ite_false] at hr
      cases hr
      exact foldl_engineStep_fst M C depthSelect siteAmps rup dists imt stddevTypes _ _ _ _
    · simp only [eq_false hstd, not_false_iff, ite_true] at hr
      cases hr

/-- When the depth-parameter update only appends fields, the loop only
appends fields. -/
theorem sitesAfter_append (depthSelect : DepthFn)
    (hdp : ∀ b g, ∃ ext, depthSelect b g = b ++ ext) :
    ∀ (L : List (ℚ × Gmpe × Bool)) (b : Bundle),
      ∃ ext, sitesAfter depthSelect b L = b ++ ext := by
  intro L
  induction L with
  | nil => intro b; exact ⟨[], by simp [sitesAfter]⟩
  | cons t ts ih =>
    intro b
    obtain ⟨e0, he0⟩ := hdp b t.2.1
    obtain ⟨e1, he1⟩ := ih (depthSelect b t.2.1)
    refine ⟨e0 ++ e1, ?_⟩
    have : sitesAfter depthSelect b (t :: ts) =
        sitesAfter depthSelect (depthSelect b t.2.1) ts := rfl
    rw [this, he1, he0, List.append_assoc]

/-- Restoring after flattening preserves the key and the shape of a field
whose shape is the validated common shape (and leaves lons/lats alone). -/
theorem restore_flatten_keyShape (orig : List ℕ) (kv : String × NDArr)
    (hsh : ¬ isLonLat kv.1 → kv.2.shape = orig) :
    ((restoreField orig (flattenField kv)).1,
      (restoreField orig (flattenField kv)).2.shape) = (kv.1, kv.2.shape) := by
  by_cases hll : isLonLat kv.1 = true
  · simp [restoreField, flattenField, hll]
  · simp [restoreField, flattenField, hll, hsh (by simpa using hll)]

/-- C10: although evaluation reshapes the array fields of the passed-in
site and distance contexts in place (flattening them to one dimension),
before returning it restores every such field (excluding
longitude/latitude, which it never touches) to its original shape, so
after a completed evaluate call the keys and shapes of the contexts'
pre-existing array fields equal those before the call (the sites context
may additionally have gained appended derived depth fields). -/
theorem bundle_shapes_restored (M : MultiGmpe) (C : ConvModel)
    (depthSelect : DepthFn) (siteAmps : SiteAmpFn) (sites : Bundle) (rup : Rup)
    (dists : Bundle) (imt : IMT) (stddevTypes : List String) (largeDist : Bool)
    (out : EvalStd)
    (hdp : ∀ b g, ∃ ext, depthSelect b g = b ++ ext)
    (h : getMeanAndStddevsAux M C depthSelect siteAmps sites rup dists imt
      stddevTypes largeDist = Except.ok out) :
    (out.sitesOut.take sites.length).map (fun kv => (kv.1, kv.2.shape)) =
      sites.map (fun kv => (kv.1, kv.2.shape)) ∧
    out.distsOut.map (fun kv => (kv.1, kv.2.shape)) =
      dists.map (fun kv => (kv.1, kv.2.shape)) := by
  unfold getMeanAndStddevsAux at h
  cases hgv : getVars M C depthSelect siteAmps sites rup dists imt stddevTypes largeDist with
  | error e => rw [hgv] at h; cases h
  | ok o =>
    rw [hgv] at h
    simp only [Except.map] at h
    cases h
    obtain ⟨orig, r, hded, hfc, hso, hdo, hmu, hsd2⟩ :=
      getVars_spec M C depthSelect siteAmps sites rup dists imt stddevTypes largeDist o hgv
    have hshapes := shape_all_eq sites dists orig hded
    have hfst := flatCombine_ok_fst M C depthSelect siteAmps (flattenBundle sites)
      rup (flattenBundle dists) imt stddevTypes largeDist r hfc
    obtain ⟨ext, hext⟩ := sitesAfter_append depthSelect hdp
      (memberTriples M largeDist) (flattenBundle sites)
    constructor
    · rw [hso, hfst, hext]
      unfold restoreBundle
      rw [List.map_append]
      have hlen : (List.map (restoreField orig) (flattenBundle sites)).length =
          sites.length := by
        unfold flattenBundle
        simp
      rw [← hlen, List.take_left]
      unfold flattenBundle
      rw [List.map_map, List.map_map]
      refine List.map_congr_left ?_
      intro kv hkv
      exact restore_flatten_keyShape orig kv (hshapes.1 kv hkv)
    · rw [hdo]
      unfold restoreBundle flattenBundle
      rw [List.map_map, List.map_map]
      refine List.map_congr_left ?_
      intro kv hkv
      exact restore_flatten_keyShape orig kv (hshapes.2 kv hkv)

def c10Depth : DepthFn :=
  fun b _ => b ++ [("z1pt0", ⟨[6], [1, 1, 1, 1, 1, 1]⟩)]

noncomputable def c10Out : EvalStd :=
  exOk (getMeanAndStddevsAux c1M c1Conv c10Depth (fun _ _ _ _ => [])
    c3Sites [] c3Dists IMT.PGA ["Total"] false) dummyStd

theorem bundle_shapes_restored_witness :
    (c10Out.sitesOut.take c3Sites.length).map (fun kv => (kv.1, kv.2.shape)) =
      c3Sites.map (fun kv => (kv.1, kv.2.shape)) ∧
    c10Out.distsOut.map (fun kv => (kv.1, kv.2.shape)) =
      c3Dists.map (fun kv => (kv.1, kv.2.shape)) :=
  bundle_shapes_restored c1M c1Conv c10Depth (fun _ _ _ _ => [])
    c3Sites [] c3Dists IMT.PGA ["Total"] false c10Out
    (fun b g => ⟨[("z1pt0", ⟨[6], [1, 1, 1, 1, 1, 1]⟩)], rfl⟩) rfl

/-! ### C5 -/

/-- C5: for a distance-blended evaluation (a configured cutoff and
large-distance weight set), the result equals the near-field output at
every site whose `rjb` distance is at most the cutoff and exactly the
far-field output at every site whose distance exceeds the cutoff —
a hard per-element selection applied identically to the mean array and to
every uncertainty-type array. -/
theorem dual_distance_selection (M : MultiGmpe) (C : ConvModel)
    (depthSelect : DepthFn) (siteAmps : SiteAmpFn) (sites : Bundle) (rup : Rup)
    (dists : Bundle) (imt : IMT) (stddevTypes : List String) (c : ℚ)
    (out outL final : EvalStd) (rarr : NDArr)
    (hc : M.CUTOFF_DISTANCE = some c)
    (h1 : getMeanAndStddevsAux M C depthSelect siteAmps sites rup dists imt
      stddevTypes false = Except.ok out)
    (h2 : getMeanAndStddevsAux M C depthSelect siteAmps out.sitesOut rup
      out.distsOut imt stddevTypes true = Except.ok outL)
    (hrjb : lookupField outL.distsOut "rjb" = some rarr)
    (h : get_mean_and_stddevs M C depthSelect siteAmps sites rup dists imt
      stddevTypes = Except.ok final) :
    (∀ k, k < rarr.data.length → k < out.lnmu.data.length →
      k < outL.lnmu.data.length →
      (rarr.data.getD k 0 ≤ c →
        final.lnmu.data.getD k 0 = out.lnmu.data.getD k 0) ∧
      (c < rarr.data.getD k 0 →
        final.lnmu.data.getD k 0 = outL.lnmu.data.getD k 0)) ∧
    (∀ j, j < out.lnsd.length → j < outL.lnsd.length →
      ∀ k, k < rarr.data.length →
      k < (out.lnsd.getD j ⟨[], []⟩).data.length →
      k < (outL.lnsd.getD j ⟨[], []⟩).data.length →
      (rarr.data.getD k 0 ≤ c →
        (final.lnsd.getD j ⟨[], []⟩).data.getD k none =
          (out.lnsd.getD j ⟨[], []⟩).data.getD k none) ∧
      (c < rarr.data.getD k 0 →
        (final.lnsd.getD j ⟨[], []⟩).data.getD k none =
          (outL.lnsd.getD j ⟨[], []⟩).data.getD k none)) := by
  unfold get_mean_and_stddevs at h
  rw [h1] at h
  simp only at h
  rw [hc] at h
  simp only at h
  rw [h2] at h
  simp only at h
  rw [hrjb] at h
  simp only [Option.getD_some] at h
  cases h
  constructor
  · intro k hkr hkn hkf
    have hsel : (stompSelect c rarr.data out.lnmu.data outL.lnmu.data).getD k 0 =
        if c < rarr.data.getD k 0 then outL.lnmu.data.getD k 0
        else out.lnmu.data.getD k 0 := by
      unfold stompSelect
      exact zipWith3GetD _ 0 0 0 0 rarr.data out.lnmu.data outL.lnmu.data k hkr hkn hkf
    constructor
    · intro hle
      simp only [hsel, if_neg (not_lt.mpr hle)]
    · intro hgt
      simp only [hsel, if_pos hgt]
  · intro j hjn hjf k hkr hkn hkf
    have hj : (List.zipWith
        (fun a b => (⟨a.shape, stompSelect c rarr.data a.data b.data⟩ : NDArrR))
        out.lnsd outL.lnsd).getD j ⟨[], []⟩ =
        (⟨(out.lnsd.getD j ⟨[], []⟩).shape,
          stompSelect c rarr.data (out.lnsd.getD j ⟨[], []⟩).data
            (outL.lnsd.getD j ⟨[], []⟩).data⟩ : NDArrR) :=
      zipWithGetD _ (⟨[], []⟩ : NDArrR) (⟨[], []⟩ : NDArrR) (⟨[], []⟩ : NDArrR)
        out.lnsd outL.lnsd j hjn hjf
    have hsel : (stompSelect c rarr.data (out.lnsd.getD j ⟨[], []⟩).data
        (outL.lnsd.getD j ⟨[], []⟩).data).getD k none =
        if c < rarr.data.getD k 0 then (outL.lnsd.getD j ⟨[], []⟩).data.getD k none
        else (out.lnsd.getD j ⟨[], []⟩).data.getD k none := by
      unfold stompSelect
      exact zipWith3GetD _ 0 none none none rarr.data _ _ k hkr hkn hkf
    constructor
    · intro hle
      simp only [hj, hsel, if_neg (not_lt.mpr hle)]
    · intro hgt
      simp only [hj, hsel, if_pos hgt]

def c5Gmpe : Gmpe :=
  { DEFINED_FOR_TECTONIC_REGION_TYPE := "Active Shallow Crust"
    DEFINED_FOR_INTENSITY_MEASURE_TYPES := ["PGA", "PGV", "SA"]
    DEFINED_FOR_INTENSITY_MEASURE_COMPONENT := IMC.greaterOfTwoHorizontal
    DEFINED_FOR_STANDARD_DEVIATION_TYPES := ["Total"]
    REQUIRES_SITES_PARAMETERS := ["vs30"]
    REQUIRES_RUPTURE_PARAMETERS := ["mag"]
    REQUIRES_DISTANCES := ["rjb"]
    saPeriods := [1/10, 1, 2]
    nonSaCoeffs := [IMT.PGA, IMT.PGV]
    evalAt := fun _ _ _ _ _ => ([2, 2], [[3, 3]]) }

/-- A blended configuration: near-field weight 1, far-field weight 2 (so
the two regimes give different outputs), cutoff 50. -/
def c5M : MultiGmpe :=
  { GMPES := [c5Gmpe]
    WEIGHTS := [1]
    DEFINED_FOR_INTENSITY_MEASURE_TYPES := ["PGA", "PGV", "SA"]
    ALL_GMPES_HAVE_PGV := true
    IMCs := [IMC.greaterOfTwoHorizontal]
    DEFINED_FOR_INTENSITY_MEASURE_COMPONENT := IMC.greaterOfTwoHorizontal
    DEFINED_FOR_STANDARD_DEVIATION_TYPES := ["Total"]
    REQUIRES_SITES_PARAMETERS := ["vs30"]
    HAS_SITE := [true]
    DEFAULT_GMPES_FOR_SITE := none
    DEFAULT_GMPES_FOR_SITE_WEIGHTS := none
    REFERENCE_VS30 := 760
    REQUIRES_RUPTURE_PARAMETERS := ["mag"]
    REQUIRES_DISTANCES := ["rjb"]
    CUTOFF_DISTANCE := some 50
    WEIGHTS_LARGE_DISTANCE := [2] }

def c5Sites : Bundle := [("vs30", ⟨[2], [760, 760]⟩)]

def c5Dists : Bundle := [("rjb", ⟨[2], [1, 100]⟩)]

noncomputable def c5Near : EvalStd :=
  exOk (getMeanAndStddevsAux c5M c1Conv (fun b _ => b) (fun _ _ _ _ => [])
    c5Sites [] c5Dists IMT.PGA ["Total"] false) dummyStd

noncomputable def c5Far : EvalStd :=
  exOk (getMeanAndStddevsAux c5M c1Conv (fun b _ => b) (fun _ _ _ _ => [])
    c5Near.sitesOut [] c5Near.distsOut IMT.PGA ["Total"] true) dummyStd

noncomputable def c5Final : EvalStd :=
  exOk (get_mean_and_stddevs c5M c1Conv (fun b _ => b) (fun _ _ _ _ => [])
    c5Sites [] c5Dists IMT.PGA ["Total"]) dummyStd

theorem dual_distance_selection_witness :
    c5Final.lnmu.data.getD 0 0 = c5Near.lnmu.data.getD 0 0 ∧
    c5Final.lnmu.data.getD 1 0 = c5Far.lnmu.data.getD 1 0 ∧
    (c5Final.lnsd.getD 0 ⟨[], []⟩).data.getD 1 none =
      (c5Far.lnsd.getD 0 ⟨[], []⟩).data.getD 1 none := by
  have h := dual_distance_selection c5M c1Conv (fun b _ => b) (fun _ _ _ _ => [])
    c5Sites [] c5Dists IMT.PGA ["Total"] 50 c5Near c5Far c5Final ⟨[2], [1, 100]⟩
    rfl rfl rfl rfl rfl
  refine ⟨?_, ?_, ?_⟩
  · exact (h.1 0 (by decide) (by decide) (by decide)).1 (by norm_num)
  · exact (h.1 1 (by decide) (by decide) (by decide)).2 (by norm_num)
  · exact (h.2 0 (by decide) (by decide) 1 (by decide) (by decide) (by decide)).2
      (by norm_num)

/-! ### C2 -/

theorem npSqrt_neg (q : ℚ) (h : q < 0) : npSqrt q = none := by
  unfold npSqrt
  rw [if_pos h]

/-- A weight accepted by the 1e-7 tolerance of the `from_list` weight-sum
check but strictly above 1: with it the law-of-total-variance subtraction
is exactly negative. -/
def c2W : ℚ := 1 + 1 / 10000000

def c2Gmpe : Gmpe :=
  { DEFINED_FOR_TECTONIC_REGION_TYPE := "Active Shallow Crust"
    DEFINED_FOR_INTENSITY_MEASURE_TYPES := ["PGA", "PGV", "SA"]
    DEFINED_FOR_INTENSITY_MEASURE_COMPONENT := IMC.greaterOfTwoHorizontal
    DEFINED_FOR_STANDARD_DEVIATION_TYPES := ["Total"]
    REQUIRES_SITES_PARAMETERS := ["vs30"]
    REQUIRES_RUPTURE_PARAMETERS := ["mag"]
    REQUIRES_DISTANCES := ["rjb"]
    saPeriods := [1/10, 1, 2]
    nonSaCoeffs := [IMT.PGA, IMT.PGV]
    evalAt := fun _ _ _ _ _ => ([1], [[0]]) }

/-- The composite that `from_list` builds from `[c2Gmpe]` with the weight
vector `[1 + 1e-7]`. -/
def c2M : MultiGmpe :=
  { GMPES := [c2Gmpe]
    WEIGHTS := [c2W]
    DEFINED_FOR_INTENSITY_MEASURE_TYPES := ["PGA", "PGV", "SA"]
    ALL_GMPES_HAVE_PGV := true
    IMCs := [IMC.greaterOfTwoHorizontal]
    DEFINED_FOR_INTENSITY_MEASURE_COMPONENT := IMC.greaterOfTwoHorizontal
    DEFINED_FOR_STANDARD_DEVIATION_TYPES := ["Total"]
    REQUIRES_SITES_PARAMETERS := ["vs30"]
    HAS_SITE := [true]
    DEFAULT_GMPES_FOR_SITE := none
    DEFAULT_GMPES_FOR_SITE_WEIGHTS := none
    REFERENCE_VS30 := 760
    REQUIRES_RUPTURE_PARAMETERS := ["mag"]
    REQUIRES_DISTANCES := ["rjb"]
    CUTOFF_DISTANCE := none
    WEIGHTS_LARGE_DISTANCE := [] }

noncomputable def c2Out : EvalStd :=
  exOk (getMeanAndStddevsAux c2M c1Conv (fun b _ => b) (fun _ _ _ _ => [])
    c1Sites [] c1Dists IMT.PGA ["Total"] false) dummyStd

/-- C2, refuted on the code: the weight vector `[1 + 1e-7]` passes the
`from_list` validity check (its sum is 1 within the 1e-7 tolerance), and on
a member with mean 1 and standard deviation 0 the combination produces the
exactly negative variance `(1+1e-7) - (1+1e-7)^2`; `np.sqrt` then returns
NaN (`none`), which `__get_mean_and_stddevs` returns without clamping to
zero and without raising. -/
theorem sqrt_negative_variance_not_clamped :
    from_list [GmpeEntry.gmpe c2Gmpe] [c2W] IMC.greaterOfTwoHorizontal none none
      760 = Except.ok c2M ∧
    (c2Out.lnsd.getD 0 ⟨[], []⟩).data.getD 0 none = none := by
  constructor
  · unfold from_list
    rw [if_neg (not_not_intro (by
      have hs : ([c2W] : List ℚ).sum - 1 = 1 / 10000000 := by
        simp [c2W]
      rw [hs, abs_of_nonneg (by norm_num)]))]
    rw [if_neg (by decide)]
    rfl
  · have h := engine_pointwise c2M c1Conv (fun b _ => b) (fun _ _ _ _ => [])
      c1Sites [] c1Dists IMT.PGA ["Total"] c2Out ⟨[1], [760]⟩ rfl (by decide)
      (by
        intro p hp
        simp only [memberTriples, c2M, memberSeq, memberMeanSd, c2Gmpe, c1Conv,
          List.zip_cons_cons, List.zip_nil_right, List.mem_cons] at hp
        simp only [List.not_mem_nil, or_false] at hp
        subst hp
        simp) rfl
    rw [h.2 0 (by decide) 0 (by decide)]
    apply npSqrt_neg
    have harg : rawSecondMomentAt (memberTriples c2M false)
        (memberSeq c2M c1Conv (fun b _ => b) (fun _ _ _ _ => []) []
          (flattenBundle c1Dists) IMT.PGA ["Total"] (flattenBundle c1Sites)
          (memberTriples c2M false)) 0 0 -
        (weightedMeanAt (memberTriples c2M false)
          (memberSeq c2M c1Conv (fun b _ => b) (fun _ _ _ _ => []) []
            (flattenBundle c1Dists) IMT.PGA ["Total"] (flattenBundle c1Sites)
            (memberTriples c2M false)) 0) ^ 2 = c2W - c2W ^ 2 := by
      simp only [memberTriples, c2M, memberSeq, memberMeanSd, c2Gmpe, c1Conv,
        weightedMeanAt, rawSecondMomentAt, List.zip_cons_cons, List.zip_nil_right]
      norm_num
    rw [harg]
    rw [c2W]
    norm_num

/-! ### C7 -/

/-- C7: when the requested measure is PGV and the member model does not
natively support it, the engine evaluates that model for 1.0-second
spectral acceleration (adding the default site amplification when the
member lacks a site term) and converts that result to PGV via the
empirical relation, using the converted mean and uncertainty in place of a
direct evaluation; a member that natively supports PGV is evaluated
directly.  Stated for a one-member set at weight 1, so the engine output
is exactly the member contribution. -/
theorem pgv_conversion_path (M : MultiGmpe) (C : ConvModel)
    (depthSelect : DepthFn) (siteAmps : SiteAmpFn) (sites : Bundle) (rup : Rup)
    (dists : Bundle) (stddevTypes : List String) (out : EvalStd)
    (vs30 : NDArr) (g : Gmpe) (hs : Bool)
    (psa10 sd0 mpgv spgv mdir : List ℚ) (sdir : List (List ℚ))
    (hg : M.GMPES = [g]) (hw : M.WEIGHTS = [1]) (hh : M.HAS_SITE = [hs])
    (hpsa : psa10 =
      (if hs then (g.evalAt (depthSelect (flattenBundle sites) g) rup
          (flattenBundle dists) (IMT.SA 1) stddevTypes).1
       else List.zipWith (fun a b => a + b)
         (g.evalAt (depthSelect (flattenBundle sites) g) rup
           (flattenBundle dists) (IMT.SA 1) stddevTypes).1
         (siteAmps (depthSelect (flattenBundle sites) g) rup
           (flattenBundle dists) (IMT.SA 1))))
    (hsd0 : sd0 = ((g.evalAt (depthSelect (flattenBundle sites) g) rup
      (flattenBundle dists) (IMT.SA 1) stddevTypes).2).headD [])
    (hmp : mpgv = (List.zipWith C.psa102pgvMean psa10 sd0).map
      (C.amp g.DEFINED_FOR_INTENSITY_MEASURE_COMPONENT
        M.DEFINED_FOR_INTENSITY_MEASURE_COMPONENT IMT.PGV))
    (hsp : spgv = (List.zipWith C.psa102pgvSd psa10 sd0).map
      (C.sigma g.DEFINED_FOR_INTENSITY_MEASURE_COMPONENT
        M.DEFINED_FOR_INTENSITY_MEASURE_COMPONENT IMT.PGV))
    (hmd : mdir =
      ((if hs then (g.evalAt (depthSelect (flattenBundle sites) g) rup
          (flattenBundle dists) IMT.PGV stddevTypes).1
        else List.zipWith (fun a b => a + b)
          (g.evalAt (depthSelect (flattenBundle sites) g) rup
            (flattenBundle dists) IMT.PGV stddevTypes).1
          (siteAmps (depthSelect (flattenBundle sites) g) rup
            (flattenBundle dists) IMT.PGV))).map
        (C.amp g.DEFINED_FOR_INTENSITY_MEASURE_COMPONENT
          M.DEFINED_FOR_INTENSITY_MEASURE_COMPONENT IMT.PGV))
    (hsdir : sdir = ((g.evalAt (depthSelect (flattenBundle sites) g) rup
        (flattenBundle dists) IMT.PGV stddevTypes).2).map
      (fun l => l.map (C.sigma g.DEFINED_FOR_INTENSITY_MEASURE_COMPONENT
        M.DEFINED_FOR_INTENSITY_MEASURE_COMPONENT IMT.PGV)))
    (hvs : lookupField (flattenBundle sites) "vs30" = some vs30)
    (hstd : (stddevTypes.all
      (fun t => M.DEFINED_FOR_STANDARD_DEVIATION_TYPES.contains t)) = true)
    (hlp : mpgv.length = vs30.data.length)
    (hlmd : mdir.length = vs30.data.length)
    (hlsd : sdir.length = stddevTypes.length)
    (hlsd2 : ∀ j, j < stddevTypes.length → (sdir.getD j []).length = vs30.data.length)
    (hnnp : ∀ k, k < vs30.data.length → 0 ≤ spgv.getD k 0)
    (hnnd : ∀ j, j < stddevTypes.length → ∀ k, k < vs30.data.length →
      0 ≤ (sdir.getD j []).getD k 0)
    (h : getMeanAndStddevsAux M C depthSelect siteAmps sites rup dists IMT.PGV
      stddevTypes false = Except.ok out) :
    (g.DEFINED_FOR_INTENSITY_MEASURE_TYPES.contains "PGV" = false →
      (∀ k, k < vs30.data.length →
        out.lnmu.data.getD k 0 = mpgv.getD k 0) ∧
      (∀ j, j < stddevTypes.length → ∀ k, k < vs30.data.length →
        (out.lnsd.getD j ⟨[], []⟩).data.getD k none =
          some ((spgv.getD k 0 : ℚ) : ℝ))) ∧
    (g.DEFINED_FOR_INTENSITY_MEASURE_TYPES.contains "PGV" = true →
      (∀ k, k < vs30.data.length →
        out.lnmu.data.getD k 0 = mdir.getD k 0) ∧
      (∀ j, j < stddevTypes.length → ∀ k, k < vs30.data.length →
        (out.lnsd.getD j ⟨[], []⟩).data.getD k none =
          some (((sdir.getD j []).getD k 0 : ℚ) : ℝ))) := by
  constructor
  · intro hnot
    have hspl : spgv.length = vs30.data.length := by
      have : mpgv.length = spgv.length := by
        rw [hmp, hsp]
        simp [List.length_zipWith]
      omega
    have hms : (mpgv, List.replicate stddevTypes.length spgv) =
        memberMeanSd M C siteAmps (depthSelect (flattenBundle sites) g)
          rup (flattenBundle dists) IMT.PGV stddevTypes g hs := by
      unfold memberMeanSd
      rw [if_pos ⟨rfl, by rw [hnot]; simp⟩]
      simp only
      rw [hmp, hsp, hpsa, hsd0, List.map_replicate]
    have happ := single_member_pointwise M C depthSelect siteAmps sites rup dists
      IMT.PGV stddevTypes out vs30 g hs (mpgv, List.replicate stddevTypes.length spgv)
      hg hw hh hms hvs hstd hlp (by simp) (fun j hj => by
        rw [replicateGetDLt _ j _ [] hj]
        exact hspl)
      (fun j hj k hk => by
        rw [replicateGetDLt _ j _ [] hj]
        exact hnnp k hk) h
    refine ⟨happ.1, ?_⟩
    intro j hj k hk
    rw [happ.2 j hj k hk, replicateGetDLt _ j _ [] hj]
  · intro hyes
    have hms : (mdir, sdir) =
        memberMeanSd M C siteAmps (depthSelect (flattenBundle sites) g)
          rup (flattenBundle dists) IMT.PGV stddevTypes g hs := by
      unfold memberMeanSd
      rw [if_neg (fun hcon => hcon.2 hyes)]
      cases hs with
      | true =>
        simp only [ite_true]
        rw [hmd, hsdir]
        simp
      | false =>
        simp only [ite_false]
        rw [hmd, hsdir]
        simp
    have happ := single_member_pointwise M C depthSelect siteAmps sites rup dists
      IMT.PGV stddevTypes out vs30 g hs (mdir, sdir)
      hg hw hh hms hvs hstd hlmd hlsd hlsd2 hnnd h
    exact happ

def c7Gmpe : Gmpe :=
  { DEFINED_FOR_TECTONIC_REGION_TYPE := "Active Shallow Crust"
    DEFINED_FOR_INTENSITY_MEASURE_TYPES := ["PGA", "SA"]
    DEFINED_FOR_INTENSITY_MEASURE_COMPONENT := IMC.greaterOfTwoHorizontal
    DEFINED_FOR_STANDARD_DEVIATION_TYPES := ["Total"]
    REQUIRES_SITES_PARAMETERS := ["vs30"]
    REQUIRES_RUPTURE_PARAMETERS := ["mag"]
    REQUIRES_DISTANCES := ["rjb"]
    saPeriods := [1/10, 1, 2]
    nonSaCoeffs := [IMT.PGA]
    evalAt := fun _ _ _ imt _ =>
      if imt = IMT.SA 1 then ([2], [[3]]) else ([11], [[1]]) }

def c7M : MultiGmpe :=
  { GMPES := [c7Gmpe]
    WEIGHTS := [1]
    DEFINED_FOR_INTENSITY_MEASURE_TYPES := ["PGA", "SA"]
    ALL_GMPES_HAVE_PGV := false
    IMCs := [IMC.greaterOfTwoHorizontal]
    DEFINED_FOR_INTENSITY_MEASURE_COMPONENT := IMC.greaterOfTwoHorizontal
    DEFINED_FOR_STANDARD_DEVIATION_TYPES := ["Total"]
    REQUIRES_SITES_PARAMETERS := ["vs30"]
    HAS_SITE := [true]
    DEFAULT_GMPES_FOR_SITE := none
    DEFAULT_GMPES_FOR_SITE_WEIGHTS := none
    REFERENCE_VS30 := 760
    REQUIRES_RUPTURE_PARAMETERS := ["mag"]
    REQUIRES_DISTANCES := ["rjb"]
    CUTOFF_DISTANCE := none
    WEIGHTS_LARGE_DISTANCE := [] }

noncomputable def c7Out : EvalStd :=
  exOk (getMeanAndStddevsAux c7M c1Conv (fun b _ => b) (fun _ _ _ _ => [])
    c1Sites [] c1Dists IMT.PGV ["Total"] false) dummyStd

/-- With `psa102pgvMean m s = m + s` the converted mean is `2 + 3 = 5`,
not the `11` a direct PGV evaluation would have produced: the conversion
branch is taken. -/
theorem pgv_conversion_path_witness :
    c7Out.lnmu.data.getD 0 0 = ([5] : List ℚ).getD 0 0 ∧
    (c7Out.lnsd.getD 0 ⟨[], []⟩).data.getD 0 none = some (((3 : ℚ) : ℝ)) := by
  have h := pgv_conversion_path c7M c1Conv (fun b _ => b) (fun _ _ _ _ => [])
    c1Sites [] c1Dists ["Total"] c7Out ⟨[1], [760]⟩ c7Gmpe true
    [2] [3] [5] [3] [11] [[1]] rfl rfl rfl
    (by norm_num [c7Gmpe]) (by norm_num [c7Gmpe])
    (by norm_num [c1Conv, c7Gmpe, c7M])
    (by norm_num [c1Conv, c7Gmpe, c7M])
    (by norm_num [c1Conv, c7Gmpe, c7M]; rfl)
    (by norm_num [c1Conv, c7Gmpe, c7M]; rfl)
    rfl (by decide) (by decide) (by decide) (by decide) (by decide)
    (by
      intro k hk
      have hk0 : k = 0 := by simpa using hk
      subst hk0
      norm_num)
    (by
      intro j hj k hk
      have hj0 : j = 0 := by simpa using hj
      have hk0 : k = 0 := by simpa using hk
      subst hj0
      subst hk0
      norm_num)
    rfl
  have hb := h.1 (by decide)
  exact ⟨hb.1 0 (by decide), hb.2 0 (by decide) 0 (by decide)⟩

/-! ### C9 -/

/-- C9: every composite successfully constructed by `from_list` has
`vs30` among its required site parameters, even when no member model (nor
any default site-term model) lists `vs30` among its own required site
parameters: the union of member requirements is always extended with
`vs30` (lines 571-577). -/
theorem fromList_requires_vs30 (entries : List GmpeEntry) (weights : List ℚ)
    (imc : IMC) (ds : Option (List GmpeEntry)) (dsw : Option (List ℚ))
    (ref : ℚ) (M : MultiGmpe)
    (h : from_list entries weights imc ds dsw ref = Except.ok M) :
    "vs30" ∈ M.REQUIRES_SITES_PARAMETERS := by
  unfold from_list at h
  by_cases h1 : ¬ |weights.sum - 1| ≤ 1 / 10000000
  · rw [if_pos h1] at h
    exact Except.noConfusion h
  rw [if_neg h1] at h
  by_cases h2 : weights.length ≠ entries.length
  · rw [if_pos h2] at h
    exact Except.noConfusion h
  rw [if_neg h2] at h
  repeat split at h
  all_goals try simp only [] at h
  all_goals repeat split at h
  all_goals first
    | exact Except.noConfusion h
    | (cases h
       exact List.mem_union_iff.mpr (Or.inr (by simp)))

/-- A member with no native site term (no `vs30` requirement). -/
def c9Gmpe : Gmpe :=
  { DEFINED_FOR_TECTONIC_REGION_TYPE := "Stable Shallow Crust"
    DEFINED_FOR_INTENSITY_MEASURE_TYPES := ["PGA", "SA"]
    DEFINED_FOR_INTENSITY_MEASURE_COMPONENT := IMC.greaterOfTwoHorizontal
    DEFINED_FOR_STANDARD_DEVIATION_TYPES := ["Total"]
    REQUIRES_SITES_PARAMETERS := ["backarc"]
    REQUIRES_RUPTURE_PARAMETERS := ["mag"]
    REQUIRES_DISTANCES := ["rjb"]
    saPeriods := [1/10, 1, 2]
    nonSaCoeffs := [IMT.PGA]
    evalAt := fun _ _ _ _ _ => ([0], [[1]]) }

/-- A default site-term model that also does not list `vs30`. -/
def c9SiteGmpe : Gmpe :=
  { DEFINED_FOR_TECTONIC_REGION_TYPE := "Active Shallow Crust"
    DEFINED_FOR_INTENSITY_MEASURE_TYPES := ["PGA", "SA"]
    DEFINED_FOR_INTENSITY_MEASURE_COMPONENT := IMC.greaterOfTwoHorizontal
    DEFINED_FOR_STANDARD_DEVIATION_TYPES := ["Total"]
    REQUIRES_SITES_PARAMETERS := []
    REQUIRES_RUPTURE_PARAMETERS := ["mag"]
    REQUIRES_DISTANCES := ["rjb"]
    saPeriods := [1/10, 1, 2]
    nonSaCoeffs := [IMT.PGA]
    evalAt := fun _ _ _ _ _ => ([0], [[1]]) }

/-- The composite `from_list` builds for `[c9Gmpe]` with the default site
models `[c9SiteGmpe]`. -/
def c9M : MultiGmpe :=
  { GMPES := [c9Gmpe]
    WEIGHTS := [1]
    DEFINED_FOR_INTENSITY_MEASURE_TYPES := ["PGA", "SA"]
    ALL_GMPES_HAVE_PGV := false
    IMCs := [IMC.greaterOfTwoHorizontal]
    DEFINED_FOR_INTENSITY_MEASURE_COMPONENT := IMC.greaterOfTwoHorizontal
    DEFINED_FOR_STANDARD_DEVIATION_TYPES := ["Total"]
    REQUIRES_SITES_PARAMETERS := ["backarc", "vs30"]
    HAS_SITE := [false]
    DEFAULT_GMPES_FOR_SITE := some [c9SiteGmpe]
    DEFAULT_GMPES_FOR_SITE_WEIGHTS := some [1]
    REFERENCE_VS30 := 760
    REQUIRES_RUPTURE_PARAMETERS := ["mag"]
    REQUIRES_DISTANCES := ["rjb"]
    CUTOFF_DISTANCE := none
    WEIGHTS_LARGE_DISTANCE := [] }

theorem c9_fromList_ok :
    from_list [GmpeEntry.gmpe c9Gmpe] [1] IMC.greaterOfTwoHorizontal
      (some [GmpeEntry.gmpe c9SiteGmpe]) (some [1]) 760 = Except.ok c9M := by
  unfold from_list
  rw [if_neg (not_not_intro (by norm_num))]
  rw [if_neg (by decide)]
  norm_num [List.find?, GmpeEntry.isGmpe, entryGmpes, List.filterMap,
    siteDefaultsCheck, unionAll, interAll, c9Gmpe, c9SiteGmpe, c9M,
    List.union, List.insert]
  refine ⟨⟨?_, ?_⟩, ?_, ?_⟩ <;> decide

theorem fromList_requires_vs30_witness :
    "vs30" ∈ c9M.REQUIRES_SITES_PARAMETERS :=
  fromList_requires_vs30 [GmpeEntry.gmpe c9Gmpe] [1] IMC.greaterOfTwoHorizontal
    (some [GmpeEntry.gmpe c9SiteGmpe]) (some [1]) 760 c9M c9_fromList_ok

/-! ### C4 -/

def c4A : Gmpe :=
  { DEFINED_FOR_TECTONIC_REGION_TYPE := "Active Shallow Crust"
    DEFINED_FOR_INTENSITY_MEASURE_TYPES := ["PGA", "SA"]
    DEFINED_FOR_INTENSITY_MEASURE_COMPONENT := IMC.greaterOfTwoHorizontal
    DEFINED_FOR_STANDARD_DEVIATION_TYPES := ["Total"]
    REQUIRES_SITES_PARAMETERS := ["vs30"]
    REQUIRES_RUPTURE_PARAMETERS := ["mag"]
    REQUIRES_DISTANCES := ["rjb"]
    saPeriods := [2]
    nonSaCoeffs := [IMT.PGA]
    evalAt := fun _ _ _ _ _ => ([0], [[1]]) }

def c4B : Gmpe :=
  { DEFINED_FOR_TECTONIC_REGION_TYPE := "Subduction Interface"
    DEFINED_FOR_INTENSITY_MEASURE_TYPES := ["PGA", "SA"]
    DEFINED_FOR_INTENSITY_MEASURE_COMPONENT := IMC.greaterOfTwoHorizontal
    DEFINED_FOR_STANDARD_DEVIATION_TYPES := ["Total"]
    REQUIRES_SITES_PARAMETERS := ["vs30"]
    REQUIRES_RUPTURE_PARAMETERS := ["mag"]
    REQUIRES_DISTANCES := ["rjb"]
    saPeriods := [2]
    nonSaCoeffs := [IMT.PGA]
    evalAt := fun _ _ _ _ _ => ([0], [[1]]) }

/-- Counterexample to C4 as stated: `from_list` succeeds on two members
declaring different tectonic regions; the source performs no
tectonic-region check and raises no tectonic-region-mismatch error. -/
theorem fromList_accepts_mixed_tectonic_regions :
    c4A.DEFINED_FOR_TECTONIC_REGION_TYPE ≠ c4B.DEFINED_FOR_TECTONIC_REGION_TYPE ∧
    (from_list [GmpeEntry.gmpe c4A, GmpeEntry.gmpe c4B] [1/2, 1/2]
      IMC.greaterOfTwoHorizontal none none 760).isOk = true := by
  refine ⟨by decide, ?_⟩
  unfold from_list
  rw [if_neg (not_not_intro (by norm_num))]
  rw [if_neg (by decide)]
  rfl

theorem siteDefaultsCheck_all_none (hs : List Bool) (dsw : Option (List ℚ))
    (h : hs.all (fun b => b) = true) :
    siteDefaultsCheck hs none dsw = Except.ok (none, dsw) := by
  unfold siteDefaultsCheck
  simp only []
  rw [if_pos h]

/-- C4 as amended: `from_list` validates, in order, that the weights sum
to 1 within 1e-7 (else `WeightSumError`), that the weight count matches
the model count (else count mismatch), and that every entry is a
recognised model instance (else invalid-model error, naming the first
offender); it performs no tectonic-region validation: when those checks
pass (here with every member carrying its own site term and no default
site set), assembly succeeds regardless of the members' tectonic
regions. -/
theorem from_list_validation_order (entries : List GmpeEntry) (weights : List ℚ)
    (imc : IMC) (ds : Option (List GmpeEntry)) (dsw : Option (List ℚ)) (ref : ℚ) :
    (1 / 10000000 < |weights.sum - 1| →
      from_list entries weights imc ds dsw ref =
        Except.error FromListError.weightSum) ∧
    (|weights.sum - 1| ≤ 1 / 10000000 → weights.length ≠ entries.length →
      from_list entries weights imc ds dsw ref =
        Except.error FromListError.weightCount) ∧
    (∀ e, |weights.sum - 1| ≤ 1 / 10000000 → weights.length = entries.length →
      entries.find? (fun x => ¬ x.isGmpe) = some e →
      from_list entries weights imc ds dsw ref =
        Except.error (FromListError.notAGmpe e.reprName)) ∧
    (|weights.sum - 1| ≤ 1 / 10000000 → weights.length = entries.length →
      entries.find? (fun x => ¬ x.isGmpe) = none → ds = none →
      (∀ g ∈ entryGmpes entries, "vs30" ∈ g.REQUIRES_SITES_PARAMETERS) →
      (from_list entries weights imc ds dsw ref).isOk = true) := by
  refine ⟨?_, ?_, ?_, ?_⟩
  · intro h1
    unfold from_list
    rw [if_pos (not_le.mpr h1)]
  · intro h1 h2
    unfold from_list
    rw [if_neg (not_not_intro h1), if_pos h2]
  · intro e h1 h2 h3
    unfold from_list
    rw [if_neg (not_not_intro h1), if_neg (fun hc => hc h2), h3]
  · intro h1 h2 h3 h4 hall
    subst h4
    unfold from_list
    rw [if_neg (not_not_intro h1), if_neg (fun hc => hc h2), h3]
    simp only []
    have hAll : ((entryGmpes entries).map
        (fun g => g.REQUIRES_SITES_PARAMETERS.contains "vs30")).all
        (fun b => b) = true := by
      rw [List.all_eq_true]
      intro b hb
      obtain ⟨g, hg, hbg⟩ := List.mem_map.mp hb
      rw [← hbg]
      simpa using hall g hg
    rw [siteDefaultsCheck_all_none _ _ hAll]
    rfl

theorem from_list_validation_order_witness :
    from_list [GmpeEntry.gmpe c4A] [1/2] IMC.greaterOfTwoHorizontal none none
      760 = Except.error FromListError.weightSum :=
  (from_list_validation_order [GmpeEntry.gmpe c4A] [1/2]
    IMC.greaterOfTwoHorizontal none none 760).1 (by
      have h : (([1/2] : List ℚ).sum - 1) = -(1/2) := by norm_num
      rw [h, abs_neg, abs_of_nonneg (by norm_num : (0:ℚ) ≤ 1/2)]
      norm_num)

/-! ### C6 -/

def c6Gmpe : Gmpe :=
  { DEFINED_FOR_TECTONIC_REGION_TYPE := "Active Shallow Crust"
    DEFINED_FOR_INTENSITY_MEASURE_TYPES := ["PGA", "SA"]
    DEFINED_FOR_INTENSITY_MEASURE_COMPONENT := IMC.greaterOfTwoHorizontal
    DEFINED_FOR_STANDARD_DEVIATION_TYPES := ["Total"]
    REQUIRES_SITES_PARAMETERS := ["vs30"]
    REQUIRES_RUPTURE_PARAMETERS := ["mag"]
    REQUIRES_DISTANCES := ["rjb"]
    saPeriods := [2]
    nonSaCoeffs := [IMT.PGA]
    evalAt := fun _ _ _ _ _ => ([0], [[1]]) }

/-- C6, the failure mode the code actually has: requesting SA(3.0 s)
against a model whose period range tops out at 2.0 s empties the filtered
list, and the code then fails — but with a `NameError` (the message at
line 726 interpolates the undefined variable `val`), not with the intended
no-applicable-GMPEs exception.  The keep/renormalise behaviour for a
non-empty result is `filter_sa_rescaled_sum_one` below. -/
theorem filter_empty_raises_name_error :
    filter_gmpe_list [c6Gmpe] [1] (IMT.SA 3) =
      Except.error FilterError.nameErrorVal := by
  have hk : keepsFor (IMT.SA 3) c6Gmpe = false := by
    norm_num [keepsFor, perMaxG, perMinG, c6Gmpe]
  unfold filter_gmpe_list
  rw [if_neg (by decide)]
  simp [List.filter, hk]

/-- Rescaling by the sum yields weights summing to one whenever the kept
weights do not sum to zero. -/
theorem rescaled_weights_sum_one (ws : List ℚ) (hs : ws.sum ≠ 0) :
    (ws.map (fun w => w / ws.sum)).sum = 1 := by
  have key : ∀ (l : List ℚ) (c : ℚ), (l.map (fun w => w / c)).sum = l.sum / c := by
    intro l c
    induction l with
    | nil => simp
    | cons a t ih => simp [ih, add_div]
  rw [key, div_self hs]

/-- On a successful SA-period filtering the kept models are exactly those
whose period range covers the period, and when their weights have nonzero
sum the returned weights sum to one. -/
theorem filter_sa_rescaled_sum_one (gmpes : List Gmpe) (wts : List ℚ) (p : ℚ)
    (sg : List Gmpe) (sw : List ℚ)
    (h : filter_gmpe_list gmpes wts (IMT.SA p) = Except.ok (sg, sw))
    (hs : (((gmpes.zip wts).filter (fun gw => keepsFor (IMT.SA p) gw.1)).map
      (fun gw => gw.2)).sum ≠ 0) :
    sg = gmpes.filter (keepsFor (IMT.SA p)) ∧ sw.sum = 1 := by
  unfold filter_gmpe_list at h
  by_cases he : (gmpes.any (fun g => g.saPeriods.isEmpty)) = true
  · rw [if_pos he] at h
    exact Except.noConfusion h
  rw [if_neg he] at h
  by_cases hempty : (gmpes.filter (keepsFor (IMT.SA p))).length = 0
  · rw [if_pos hempty] at h
    exact Except.noConfusion h
  rw [if_neg hempty] at h
  cases h
  exact ⟨rfl, rescaled_weights_sum_one _ hs⟩

end Shakelib
